import Mathlib

/-!
# Verification of the gerbonara core against its specification

This file gives a shallow embedding, in Lean 4, of the parts of the
gerbonara Gerber/Excellon toolkit that the specification's claims are
about, and proves or refutes each claim.

Conventions of the embedding:

* Python floats are modelled as exact rationals (`ℚ`).  All float
  arithmetic appearing in the embedded code paths is `+ - * /`, which is
  exact over `ℚ`; `math.isclose` is embedded with its documented
  definition (`rel_tol = 1e-9`, `abs_tol = 0.0`).
* Python `None` is modelled by `Option`.
* Code that can raise is embedded as `Except String`; the error string
  names the Python exception raised.
* Python object identity (`id(...)`) is modelled by a `pid : ℕ` field on
  the embedded objects; Python dataclass equality (`==`) compares the
  value fields and ignores `pid`.
* A few functions live in repository files that are not under `src/`
  (`cam.py`'s `FileSettings`, `apertures.py`, `graphic_primitives.py`).
  Their embeddings are marked `Modelled from the spec:` in their doc
  comment and follow the specification's words.
-/

namespace Gerbonara

/-! ## Length units (`utils.py`) -/

/-- The two `LengthUnit` singletons of `utils.py` (`Inch`, `MM`). -/
inductive LUnit where
  | inch
  | mm
deriving DecidableEq, Repr

/-- `utils.py` `LengthUnit.factor` (`this_in_mm`): `Inch` is 25.4, `MM` is 1. -/
def LUnit.factor : LUnit → ℚ
  | .inch => 254/10
  | .mm => 1

/-- `utils.py` `LengthUnit.convert_from(self, unit, value)`:
    `value` if `unit == self or unit is None`, else
    `value * unit.factor / self.factor`. -/
def LUnit.convert_from (self : LUnit) (unit : Option LUnit) (value : ℚ) : ℚ :=
  match unit with
  | none => value
  | some u => if u = self then value else value * u.factor / self.factor

/-- `utils.py` `LengthUnit.__call__(value, unit)` = `convert_from(unit, value)`. -/
def LUnit.call (self : LUnit) (value : ℚ) (unit : Option LUnit) : ℚ :=
  self.convert_from unit value

/-- `utils.py` `sq_distance(point1, point2)`. -/
def sq_distance (point1 point2 : ℚ × ℚ) : ℚ :=
  (point1.1 - point2.1) * (point1.1 - point2.1) + (point1.2 - point2.2) * (point1.2 - point2.2)

/-! ## Tools (`apertures.py` `ExcellonTool`, description in spec §3.5) -/

/-- Modelled from the spec: `apertures.py` (not under `src/`) defines
`ExcellonTool`, "a drilling tool: diameter, optional depth_offset, plating
(plated | non-plated | unknown), native unit" (§3.5).  `pid` stands in for
Python object identity (`id(tool)`); it is not a Python dataclass field, so
the embedded dataclass equality `ExcellonTool.value_eq` ignores it. -/
structure ExcellonTool where
  pid : ℕ
  diameter : Option ℚ := none
  depth_offset : Option ℚ := none
  plated : Option Bool := none
  unit : LUnit := .mm
deriving DecidableEq, Repr

/-- Python dataclass `==` on tools: compares the dataclass fields, not identity. -/
def ExcellonTool.value_eq (t u : ExcellonTool) : Bool :=
  t.diameter = u.diameter && t.depth_offset = u.depth_offset
    && t.plated = u.plated && t.unit = u.unit

/-! ## Geometric objects (`graphic_objects.py`) -/

/-- `graphic_objects.py` `Flash` dataclass: `x`, `y`, `aperture`, plus the
`GerberObject` keyword fields `polarity_dark` and `unit`.  The aperture slot
is polymorphic (Python is duck typed; Excellon files store an `ExcellonTool`
there). -/
structure Flash (α : Type) where
  x : ℚ
  y : ℚ
  aperture : α
  polarity_dark : Bool := true
  unit : Option LUnit := none
deriving DecidableEq, Repr

/-- `graphic_objects.py` `Line` dataclass. -/
structure Line (α : Type) where
  x1 : ℚ
  y1 : ℚ
  x2 : ℚ
  y2 : ℚ
  aperture : α
  polarity_dark : Bool := true
  unit : Option LUnit := none
deriving DecidableEq, Repr

/-- `graphic_objects.py` `Arc` dataclass.  `cx`, `cy` are the center,
relative to `(x1, y1)` (comment in the source: "relative to (x1, x2)"). -/
structure Arc (α : Type) where
  x1 : ℚ
  y1 : ℚ
  x2 : ℚ
  y2 : ℚ
  cx : ℚ
  cy : ℚ
  clockwise : Bool
  aperture : α
  polarity_dark : Bool := true
  unit : Option LUnit := none
deriving DecidableEq, Repr

/-- `graphic_objects.py` `Arc.p1`. -/
def Arc.p1 (a : Arc α) : ℚ × ℚ := (a.x1, a.y1)

/-- `graphic_objects.py` `Arc.p2`. -/
def Arc.p2 (a : Arc α) : ℚ × ℚ := (a.x2, a.y2)

/-- `graphic_objects.py` `Arc.center` = `(cx + x1, cy + y1)`. -/
def Arc.center (a : Arc α) : ℚ × ℚ := (a.cx + a.x1, a.cy + a.y1)

/-- `graphic_objects.py` `Arc._with_offset(dx, dy)`:
`replace(self, x1=x1+dx, y1=y1+dy, x2=x2+dx, y2=y2+dy)` — the relative
center fields `cx`, `cy` are not touched. -/
def Arc._with_offset (a : Arc α) (dx dy : ℚ) : Arc α :=
  { a with x1 := a.x1 + dx, y1 := a.y1 + dy, x2 := a.x2 + dx, y2 := a.y2 + dy }

/-- `graphic_objects.py` `GerberObject.with_offset(dx, dy, unit=MM)`:
converts the offset into the object's native unit
(`dx, dy = self.unit(dx, unit), self.unit(dy, unit)`), then delegates to
`_with_offset`.  The embedding assumes the object's unit is known (a parsed
object's `unit` field; a `None` unit would make the Python conversion call
raise). -/
def Arc.with_offset (a : Arc α) (ownUnit : LUnit) (dx dy : ℚ) (unit : Option LUnit) : Arc α :=
  a._with_offset (ownUnit.call dx unit) (ownUnit.call dy unit)

/-! ## Excellon file objects (`excellon.py` `ExcellonFile`) -/

/-- The objects an `ExcellonFile` owns: `Flash`/`Line`/`Arc` "whose
aperture is actually a Tool" (spec §3.7). -/
inductive ExcObj where
  | flash (f : Flash ExcellonTool)
  | line (l : Line ExcellonTool)
  | arc (a : Arc ExcellonTool)
deriving DecidableEq, Repr

/-- The `tool` property of the graphic objects (alias for `aperture`). -/
def ExcObj.tool : ExcObj → ExcellonTool
  | .flash f => f.aperture
  | .line l => l.aperture
  | .arc a => a.aperture

/-- The `plated` property of the graphic objects: `self.tool.plated`. -/
def ExcObj.plated (o : ExcObj) : Option Bool := o.tool.plated

/-- `excellon.py` `ExcellonFile`: ordered objects plus comments (the other
constructor arguments — import settings, filename, generator hints — do not
participate in the claims below). -/
structure ExcellonFile where
  objects : List ExcObj := []
  comments : List String := []
deriving DecidableEq, Repr

/-- `excellon.py` `ExcellonFile.is_plated` (defined twice in the class body,
lines 113-115 and 252-254, with identical text; the later definition is the
live one): `all(obj.plated for obj in self.objects)` — Python truthiness,
so `None` and `False` both fail the test. -/
def ExcellonFile.is_plated (f : ExcellonFile) : Bool :=
  f.objects.all fun o => o.plated = some true

/-- `excellon.py` `ExcellonFile.is_nonplated`: also defined twice; the later
definition (line 256-258) supersedes the earlier and reads
`not any(obj.plated for obj in self.objects)`. -/
def ExcellonFile.is_nonplated (f : ExcellonFile) : Bool :=
  !(f.objects.any fun o => o.plated = some true)

/-- `excellon.py` `ExcellonFile.is_plating_unknown` (line 121-123):
`all(obj.plated is None for obj in self.objects)`. -/
def ExcellonFile.is_plating_unknown (f : ExcellonFile) : Bool :=
  f.objects.all fun o => o.plated = none

/-- `excellon.py` `ExcellonFile.is_mixed_plating` (line 125-127):
`len({obj.plated for obj in self.objects}) > 1`; the Python set of plating
values is modelled by `List.dedup`. -/
def ExcellonFile.is_mixed_plating (f : ExcellonFile) : Bool :=
  decide (1 < ((f.objects.map fun o => o.plated).dedup).length)

/-! ## Gerber graphics state (`rs274x.py` `GraphicsState.__setattr__`) -/

/-- The slice of `rs274x.py` `GraphicsState` relevant to polarity handling:
`image_polarity` (the deprecated `IP` statement value, a string, initially
`'positive'`) and `polarity_dark` (the modern `LP` polarity, initially
`True`). -/
structure GraphicsState where
  image_polarity : String := "positive"
  polarity_dark : Bool := true
deriving DecidableEq, Repr

/-- The store path of `GraphicsState.__setattr__` for `name = 'polarity_dark'`
(rs274x.py lines 320-324): when `self.image_polarity == 'negative'` the value
is inverted before being stored. -/
def GraphicsState.store_polarity_dark (s : GraphicsState) (value : Bool) : GraphicsState :=
  { s with polarity_dark := if s.image_polarity = "negative" then !value else value }

/-- The attribute stores handled by the embedded `__setattr__`. -/
inductive GSAttr where
  | image_polarity (value : String)
  | polarity_dark (value : Bool)
deriving DecidableEq, Repr

/-- `rs274x.py` `GraphicsState.__setattr__` (lines 300-324), restricted to the
two attributes involved in polarity handling.  Setting `image_polarity`
validates the value (else `ValueError`), and, when the *previous* polarity was
`'negative'`, first executes `self.polarity_dark = False` — which re-enters
`__setattr__` while `image_polarity` is still `'negative'` and therefore
stores `not False = True`.  Setting `polarity_dark` stores the (possibly
inverted) value and never raises. -/
def GraphicsState.setattr (s : GraphicsState) : GSAttr → Except String GraphicsState
  | .image_polarity value =>
      if value ≠ "positive" ∧ value ≠ "negative" then
        .error "ValueError: image_polarity must be either \"positive\" or \"negative\""
      else
        let s' := if s.image_polarity = "negative" then s.store_polarity_dark false else s
        .ok { s' with image_polarity := value }
  | .polarity_dark value => .ok (s.store_polarity_dark value)

/-! ## Claim C5 — negative image polarity inverts stored `polarity_dark` -/

/-- **C5.** In the Gerber graphics state, whenever the deprecated image
polarity is "negative", every subsequently stored locally-set
`polarity_dark` value (from LPD/LPC) is inverted on store: storing
`polarity_dark = v` while `image_polarity` is negative results in the stored
field being `not v`; while `image_polarity` is positive the stored field
equals `v`.  (The store itself never raises.) -/
theorem C5_negative_image_polarity_inverts_stores
    (s s' : GraphicsState) (v : Bool)
    (h : s.setattr (.polarity_dark v) = .ok s') :
    (s.image_polarity = "negative" → s'.polarity_dark = !v) ∧
    (s.image_polarity = "positive" → s'.polarity_dark = v) := by
  simp only [GraphicsState.setattr, GraphicsState.store_polarity_dark, Except.ok.injEq] at h
  constructor
  · intro hneg
    simp [← h, hneg]
  · intro hpos
    simp [← h, hpos]

/-- Witness for C5: a state with negative image polarity stores `not v`, one
with the default positive polarity stores `v`. -/
theorem C5_witness :
    (GraphicsState.setattr { image_polarity := "negative", polarity_dark := true }
        (.polarity_dark true) =
      .ok { image_polarity := "negative", polarity_dark := false }) ∧
    ({ image_polarity := "negative", polarity_dark := false } : GraphicsState).polarity_dark
      = !true ∧
    (GraphicsState.setattr { image_polarity := "positive", polarity_dark := false }
        (.polarity_dark true) =
      .ok { image_polarity := "positive", polarity_dark := true }) ∧
    ({ image_polarity := "positive", polarity_dark := true } : GraphicsState).polarity_dark
      = true :=
  ⟨by simp [GraphicsState.setattr, GraphicsState.store_polarity_dark],
   (C5_negative_image_polarity_inverts_stores
      { image_polarity := "negative", polarity_dark := true }
      { image_polarity := "negative", polarity_dark := false } true
      (by simp [GraphicsState.setattr, GraphicsState.store_polarity_dark])).1 rfl,
   by simp [GraphicsState.setattr, GraphicsState.store_polarity_dark],
   (C5_negative_image_polarity_inverts_stores
      { image_polarity := "positive", polarity_dark := false }
      { image_polarity := "positive", polarity_dark := true } true
      (by simp [GraphicsState.setattr, GraphicsState.store_polarity_dark])).2 rfl⟩

/-! ## Claim C9 — `Arc.with_offset` moves endpoints, keeps relative center -/

/-- **C9.** For every `Arc` object and every translation offset `(dx, dy)`,
`with_offset(dx, dy)` changes only the endpoint fields `x1, y1, x2, y2`
(each shifted by the converted offset) and leaves the relative center fields
`cx` and `cy` unchanged; consequently the absolute center translates together
with the start point, and the arc's start and end radii (squared distances
from the center to `p1` and `p2`) are preserved by translation. -/
theorem C9_arc_with_offset_translates_endpoints_keeps_center
    {α : Type} (a : Arc α) (ownUnit : LUnit) (dx dy : ℚ) (unit : Option LUnit) :
    let dx' := ownUnit.call dx unit
    let dy' := ownUnit.call dy unit
    let a' := a.with_offset ownUnit dx dy unit
    a'.x1 = a.x1 + dx' ∧ a'.y1 = a.y1 + dy' ∧
    a'.x2 = a.x2 + dx' ∧ a'.y2 = a.y2 + dy' ∧
    a'.cx = a.cx ∧ a'.cy = a.cy ∧
    a'.clockwise = a.clockwise ∧ a'.aperture = a.aperture ∧
    a'.polarity_dark = a.polarity_dark ∧ a'.unit = a.unit ∧
    a'.center = (a.center.1 + dx', a.center.2 + dy') ∧
    sq_distance a'.center a'.p1 = sq_distance a.center a.p1 ∧
    sq_distance a'.center a'.p2 = sq_distance a.center a.p2 := by
  dsimp only [Arc.with_offset, Arc._with_offset, Arc.center, Arc.p1, Arc.p2, sq_distance]
  refine ⟨rfl, rfl, rfl, rfl, rfl, rfl, rfl, rfl, rfl, rfl, ?_, ?_, ?_⟩
  · simp only [Prod.mk.injEq]
    exact ⟨by ring, by ring⟩
  · ring
  · ring

/-! ## Claim C10 — plating predicates on an empty `ExcellonFile` -/

/-- **C10.** For an `ExcellonFile` with an empty object list, the predicates
`is_plated`, `is_nonplated` and `is_plating_unknown` all return `True`
simultaneously (vacuously true universal quantifications over the objects),
and `is_mixed_plating` returns `False`. -/
theorem C10_empty_file_plating_predicates
    (f : ExcellonFile) (h : f.objects = []) :
    f.is_plated = true ∧ f.is_nonplated = true ∧
    f.is_plating_unknown = true ∧ f.is_mixed_plating = false := by
  simp [ExcellonFile.is_plated, ExcellonFile.is_nonplated,
    ExcellonFile.is_plating_unknown, ExcellonFile.is_mixed_plating, h, List.dedup]

/-- Witness for C10 at the literally empty file. -/
theorem C10_witness :
    ({ objects := [] } : ExcellonFile).objects = [] ∧
    (({ objects := [] } : ExcellonFile).is_plated = true ∧
     ({ objects := [] } : ExcellonFile).is_nonplated = true ∧
     ({ objects := [] } : ExcellonFile).is_plating_unknown = true ∧
     ({ objects := [] } : ExcellonFile).is_mixed_plating = false) :=
  ⟨rfl, C10_empty_file_plating_predicates { objects := [] } rfl⟩

/-! ## Excellon parser state (`excellon.py` `ExcellonParser`, `ProgramState`) -/

/-- `excellon.py` `ProgramState`. -/
inductive ProgramState where
  | header
  | drilling
  | routing
  | finished
deriving DecidableEq, Repr

/-- The slice of `excellon.py` `ExcellonParser` state used by the claims:
the program state (`None` initially), the tool table (a dict from integer
index to tool, modelled as an association list in insertion order), the
active tool, the current position (`self.pos = 0, 0` — a Python *tuple*),
and the objects accumulated so far. -/
structure ExcellonParser where
  program_state : Option ProgramState := none
  tools : List (ℕ × ExcellonTool) := []
  active_tool : Option ExcellonTool := none
  pos : ℚ × ℚ := (0, 0)
  objects : List ExcObj := []
deriving DecidableEq, Repr

/-- Dict lookup `index in self.tools` / `self.tools[index]`. -/
def ExcellonParser.toolAt (p : ExcellonParser) (index : ℕ) : Option ExcellonTool :=
  p.tools.lookup index

/-- `excellon.py` `ExcellonParser.parse_tool_selection` (lines 439-448):
`T0` is used as an end-of-program marker and is silently ignored; selecting
an index absent from the tool table raises
`SyntaxError('Undefined tool index {index} selected.')`; otherwise the tool
becomes the active tool. -/
def ExcellonParser.parse_tool_selection (p : ExcellonParser) (index : ℕ) :
    Except String ExcellonParser :=
  if index = 0 then .ok p
  else
    match p.toolAt index with
    | none => .error s!"SyntaxError: Undefined tool index {index} selected."
    | some tool => .ok { p with active_tool := some tool }

/-- `rs274x.py` `GerberParser._parse_aperture` (lines 725-733): aperture
numbers below 10 are invalid; a number not in `self.aperture_map` raises
`SyntaxError('Tried to access undefined aperture ...')`; otherwise the
aperture becomes the graphics state's current aperture.  The function is
polymorphic in the aperture values (the Gerber aperture classes live in
`apertures.py`, outside `src/`); it returns the new
`graphics_state.aperture`. -/
def parse_aperture {α : Type} (aperture_map : List (ℕ × α)) (number : ℕ) :
    Except String α :=
  if number < 10 then
    .error s!"SyntaxError: Invalid aperture number {number}: Aperture number must be >= 10."
  else
    match aperture_map.lookup number with
    | none => .error s!"SyntaxError: Tried to access undefined aperture {number}"
    | some ap => .ok ap

/-! ## Claim C8 — undefined tool / aperture references abort parsing -/

/-- **C8.** Referencing a tool or aperture before its definition aborts
parsing with an error: selecting an Excellon tool index that is not 0 and
not in the tool table raises an error (while selecting `T0` is silently
ignored as the end-of-program marker and changes nothing), and selecting a
Gerber aperture number that has not been defined raises an error; in both
cases the parse of the current file does not continue normally (the handler
returns an error instead of a new state). -/
theorem C8_undefined_tool_and_aperture_abort :
    (∀ (p : ExcellonParser) (index : ℕ), index ≠ 0 → p.toolAt index = none →
      p.parse_tool_selection index =
        .error s!"SyntaxError: Undefined tool index {index} selected.") ∧
    (∀ p : ExcellonParser, p.parse_tool_selection 0 = .ok p) ∧
    (∀ (p p' : ExcellonParser) (index : ℕ),
      p.parse_tool_selection index = .ok p' → p'.objects = p.objects) ∧
    (∀ (α : Type) (aperture_map : List (ℕ × α)) (number : ℕ),
      aperture_map.lookup number = none →
        ∃ msg, parse_aperture aperture_map number = .error msg) := by
  refine ⟨?_, ?_, ?_, ?_⟩
  · intro p index hnz hnone
    simp [ExcellonParser.parse_tool_selection, hnz, hnone]
  · intro p
    simp [ExcellonParser.parse_tool_selection]
  · intro p p' index h
    unfold ExcellonParser.parse_tool_selection at h
    by_cases hz : index = 0
    · rw [if_pos hz] at h
      injection h with h
      rw [← h]
    · rw [if_neg hz] at h
      cases htool : p.toolAt index with
      | none =>
        rw [htool] at h
        exact Except.noConfusion h
      | some tool =>
        rw [htool] at h
        injection h with h
        rw [← h]
  · intro α aperture_map number hnone
    unfold parse_aperture
    by_cases hlt : number < 10
    · rw [if_pos hlt]
      exact ⟨_, rfl⟩
    · rw [if_neg hlt, hnone]
      exact ⟨_, rfl⟩

/-- Witness for C8: a parser with an empty tool table rejects `T3` and
accepts `T0` unchanged; an empty aperture map rejects `D11`. -/
theorem C8_witness :
    ((3 : ℕ) ≠ 0 ∧ ExcellonParser.toolAt {} 3 = none ∧
      ExcellonParser.parse_tool_selection {} 3 =
        .error s!"SyntaxError: Undefined tool index {(3 : ℕ)} selected.") ∧
    (ExcellonParser.parse_tool_selection {} 0 = .ok {}) ∧
    (([] : List (ℕ × Unit)).lookup 11 = none ∧
      ∃ msg, parse_aperture ([] : List (ℕ × Unit)) 11 = .error msg) :=
  ⟨⟨by decide, rfl, C8_undefined_tool_and_aperture_abort.1 {} 3 (by decide) rfl⟩,
   C8_undefined_tool_and_aperture_abort.2.1 {},
   ⟨rfl, C8_undefined_tool_and_aperture_abort.2.2.2 Unit [] 11 rfl⟩⟩

/-! ## Claim C4 — `R<count>X<dx>Y<dy>` repeat command -/

/-- Python `re.Match` named-group access `match[name]` for the embedded
handlers: the pattern's groups are given as an association list from group
name to captured text (`none` when the group did not participate in the
match).  Access is case-sensitive; a name that is not a group of the
pattern raises `IndexError: no such group`. -/
def matchGroup (groups : List (String × Option String)) (name : String) :
    Except String (Option String) :=
  match groups.lookup name with
  | some v => Except.ok v
  | none => Except.error "IndexError: no such group"

/-- The named groups produced by the repeat-hole pattern
`r'R(?P<count>[0-9]+)' + xy_coord` (excellon.py line 453), where the
`coord` lambda (line 450) names each coordinate group after the coordinate
letter and `xy_coord = coord('X') + coord('Y')` (line 451): the groups are
`count`, `X` and `Y` — *uppercase*. -/
def repeatMatchGroups (count : String) (x y : Option String) :
    List (String × Option String) :=
  [("count", some count), ("X", x), ("Y", y)]

/-- `excellon.py` `ExcellonParser.handle_repeat_hole` (lines 453-468).  In
the header state the command is ignored.  Otherwise the handler evaluates,
in order, `dx = int(match['x'] or '0')` (line 458) and
`dy = int(match['y'] or '0')` (line 459): the pattern's groups are `count`,
`X` and `Y` (see `repeatMatchGroups`), and Python's named-group access is
case-sensitive, so `match['x']` raises `IndexError: no such group` — before
the repeat loop, before `ensure_active_tool`, and for every count,
including 0.  The continuation after those accesses is dead code for the
pattern's actual groups; it is still modelled from lines 461-467: the loop
runs `int(match['count'])` times (the `count` text is all digits, so `int`
is the digit fold), and its first iteration would itself raise
`TypeError: 'tuple' object does not support item assignment`, because
`self.pos[0] += dx` (line 462) mutates the position *tuple* (`self.pos =
0, 0` in `__init__`, and `do_move` assigns tuples). -/
def ExcellonParser.handle_repeat_hole (p : ExcellonParser)
    (groups : List (String × Option String)) : Except String ExcellonParser :=
  if p.program_state = some .header then .ok p
  else
    match matchGroup groups "x" with
    | .error e => .error e
    | .ok _ =>
      match matchGroup groups "y" with
      | .error e => .error e
      | .ok _ =>
        match matchGroup groups "count" with
        | .error e => .error e
        | .ok countText =>
          let count := (countText.getD "").data.foldl
            (fun a c => 10 * a + (c.toNat - 48)) 0
          if count = 0 then .ok p
          else .error "TypeError: 'tuple' object does not support item assignment"

/-- A concrete parser state in drilling mode with an active tool, about to
execute a repeat command. -/
def repeatExampleState : ExcellonParser :=
  { program_state := some .drilling,
    tools := [(1, { pid := 0, diameter := some (3/10) })],
    active_tool := some { pid := 0, diameter := some (3/10) },
    pos := (1, 2),
    objects := [] }

/-- **C4, code bug.** The claim says a repeat command `R<count>X<dx>Y<dy>`
outside the header with an active tool appends exactly `count` Flash
objects, with `count = 0` appending zero.  The code instead raises
`IndexError: no such group` for *every* repeat command outside the header,
including `count = 0`: the pattern's coordinate groups are named `X` and
`Y` (uppercase), and line 458 accesses `match['x']` (lowercase), which
fails before the repeat loop is reached.  The theorem evaluates the
embedded handler at the failing inputs `R2X10Y5` and `R0X10Y5` (drilling
state, active tool): both error instead of appending flashes; only the
header case the claim also covers succeeds with zero objects appended. -/
theorem C4_repeat_hole_raises_index_error :
    (ExcellonParser.handle_repeat_hole repeatExampleState
        (repeatMatchGroups "2" (some "10") (some "5")) =
      .error "IndexError: no such group") ∧
    (ExcellonParser.handle_repeat_hole repeatExampleState
        (repeatMatchGroups "0" (some "10") (some "5")) =
      .error "IndexError: no such group") ∧
    (ExcellonParser.handle_repeat_hole
        { repeatExampleState with program_state := some .header }
        (repeatMatchGroups "2" (some "10") (some "5")) =
      .ok { repeatExampleState with program_state := some .header }) := by
  refine ⟨rfl, rfl, rfl⟩

/-! ## Claim C2 — `ExcellonFile.bounds` -/

/-- Modelled from the spec: the per-object bounding box.  The real
implementation goes through `to_primitives` and the aperture classes
(`apertures.py`, `graphic_primitives.py` — not under `src/`); for a drill
hit it is the square of the tool's diameter centred on the flash position,
and for lines/arcs the box of the stroked primitive.  Only flashes are
needed below; the embedding gives line/arc the box spanned by their
endpoints grown by the tool radius (the spec only relies on "each object's
bounding box" being a well-defined box per object). -/
def ExcObj.bounding_box : ExcObj → (ℚ × ℚ) × (ℚ × ℚ)
  | .flash f =>
      let r := (f.aperture.diameter.getD 0) / 2
      ((f.x - r, f.y - r), (f.x + r, f.y + r))
  | .line l =>
      let r := (l.aperture.diameter.getD 0) / 2
      ((min l.x1 l.x2 - r, min l.y1 l.y2 - r), (max l.x1 l.x2 + r, max l.y1 l.y2 + r))
  | .arc a =>
      let r := (a.aperture.diameter.getD 0) / 2
      ((min a.x1 a.x2 - r, min a.y1 a.y2 - r), (max a.x1 a.x2 + r, max a.y1 a.y2 + r))

/-- `excellon.py` `ExcellonFile.bounds` (lines 307-318).  For an empty
object list it returns `None`.  Otherwise it starts from
`self.objects[0].bounding_box()` and loops over `self.objects` — but the
loop body reads `self.objects[0].bounding_box()` again (line 314) instead
of `obj.bounding_box()`, so every iteration merges the *first* object's box
into the accumulator. -/
def ExcellonFile.bounds (f : ExcellonFile) : Option ((ℚ × ℚ) × (ℚ × ℚ)) :=
  match f.objects with
  | [] => none
  | o0 :: _ =>
      some (f.objects.foldl
        (fun acc _obj =>
          let ((x_min, y_min), (x_max, y_max)) := acc
          let ((obj_x_min, obj_y_min), (obj_x_max, obj_y_max)) := o0.bounding_box
          ((min x_min obj_x_min, min y_min obj_y_min),
           (max x_max obj_x_max, max y_max obj_y_max)))
        o0.bounding_box)

/-- The claim's (and spec §4.8's) description of `bounds()`: the union of
*each* object's bounding box — the loop variable's box, not the first
object's. -/
def ExcellonFile.bounds_spec (f : ExcellonFile) : Option ((ℚ × ℚ) × (ℚ × ℚ)) :=
  match f.objects with
  | [] => none
  | o0 :: rest =>
      some (rest.foldl
        (fun acc obj =>
          let ((x_min, y_min), (x_max, y_max)) := acc
          let ((obj_x_min, obj_y_min), (obj_x_max, obj_y_max)) := obj.bounding_box
          ((min x_min obj_x_min, min y_min obj_y_min),
           (max x_max obj_x_max, max y_max obj_y_max)))
        o0.bounding_box)

/-- A two-hit drill file: one 1 mm hole at (0, 0) and one 1 mm hole at
(10, 20). -/
def twoHoleFile : ExcellonFile :=
  { objects :=
      [.flash { x := 0, y := 0, aperture := { pid := 0, diameter := some 1 }, unit := some .mm },
       .flash { x := 10, y := 20, aperture := { pid := 0, diameter := some 1 }, unit := some .mm }] }

/-- **C2, code bug.** The claim (and spec §4.8) says `bounds()` returns the
union of all objects' bounding boxes; spec §9 itself records that the
source instead reads `self.objects[0].bounding_box()` inside the loop.  At
the concrete two-hole file the code returns the first hole's box
`((-1/2, -1/2), (1/2, 1/2))`, while the union of both boxes is
`((-1/2, -1/2), (21/2, 41/2))`; the empty-file case does return `None` as
claimed. -/
theorem C2_bounds_only_first_object :
    twoHoleFile.bounds = some ((-1/2, -1/2), (1/2, 1/2)) ∧
    twoHoleFile.bounds_spec = some ((-1/2, -1/2), (21/2, 41/2)) ∧
    twoHoleFile.bounds ≠ twoHoleFile.bounds_spec ∧
    ExcellonFile.bounds { objects := [] } = none := by
  have h1 : twoHoleFile.bounds = some ((-1/2, -1/2), (1/2, 1/2)) := by
    norm_num [twoHoleFile, ExcellonFile.bounds, ExcObj.bounding_box, min_def, max_def]
  have h2 : twoHoleFile.bounds_spec = some ((-1/2, -1/2), (21/2, 41/2)) := by
    norm_num [twoHoleFile, ExcellonFile.bounds_spec, ExcObj.bounding_box, min_def, max_def]
  refine ⟨h1, h2, ?_, rfl⟩
  rw [h1, h2]
  norm_num

/-! ## File settings (`cam.py` `FileSettings`, spec §3.1) -/

/-- Modelled from the spec: `cam.py` (not under `src/`) defines
`FileSettings`, "a value type carrying: unit (inch | mm | unknown);
notation (absolute | incremental); zero_suppression (leading | trailing |
none); number_format = (integer_digits, fractional_digits), either may be
unknown" (§3.1).  The notation and zero-suppression values are the Python
strings the parser stores (`'absolute'`, `'leading'`, ...); the field
`notation_mode` carries what the source calls `notation`. -/
structure FSettings where
  unit : Option LUnit := none
  notation_mode : String := "absolute"
  zeros : Option String := none
  number_format : Option ℕ × Option ℕ := (none, none)
deriving DecidableEq, Repr

/-! Text helpers.  The Python code works on `str`; several of Lean's
built-in `String` functions use byte positions and do not evaluate inside
the kernel, so the embedding does its character work on the underlying
character lists (`String.data` / `String.mk`), which evaluates. -/

/-- Split a character list on a separator character (like `str.split(sep)`:
the separators themselves are dropped, empty pieces are kept). -/
def splitOnChar (sep : Char) : List Char → List (List Char)
  | [] => [[]]
  | x :: xs =>
      match splitOnChar sep xs with
      | [] => [[]]
      | cur :: rest => if x = sep then [] :: cur :: rest else (x :: cur) :: rest

/-- Split a character list on a character predicate, dropping the matched
characters and keeping empty pieces. -/
def splitOnPred (p : Char → Bool) : List Char → List (List Char)
  | [] => [[]]
  | x :: xs =>
      match splitOnPred p xs with
      | [] => [[]]
      | cur :: rest => if p x then [] :: cur :: rest else (x :: cur) :: rest

/-- `str.splitlines()` for `\n`-separated text (the inputs considered here
use bare line feeds; Python would also split at `\r`). -/
def splitLines (s : String) : List String :=
  (splitOnChar '\n' s.data).map String.mk

/-- `re.sub(r'\s+', ' ', line.strip())`: collapse runs of whitespace to a
single space and strip the ends. -/
def collapse_ws (line : String) : String :=
  String.mk (List.intercalate [' '] ((splitOnPred (·.isWhitespace) line.data).filter (· ≠ [])))

/-- `str.startswith(pre)`. -/
def startsWithStr (s pre : String) : Bool :=
  pre.data.isPrefixOf s.data

/-- Drop the first `n` characters of a string. -/
def strDrop (s : String) (n : ℕ) : String :=
  String.mk (s.data.drop n)

/-- `str.lower()` for ASCII letters. -/
def strLower (s : String) : String :=
  String.mk (s.data.map fun c =>
    if 'A' ≤ c ∧ c ≤ 'Z' then Char.ofNat (c.toNat + 32) else c)

/-- Is the string a non-empty run of ASCII digits? -/
def isDigits (s : String) : Bool :=
  !s.data.isEmpty && s.data.all (·.isDigit)

/-- Interpret a run of ASCII digits as a natural number (`int(s)` for the
strings that `isDigits` accepts). -/
def digitsToNat (s : String) : ℕ :=
  s.data.foldl (fun a c => 10 * a + (c.toNat - 48)) 0

/-- One line of the `parse_allegro_ncparam` loop body (excellon.py lines
73-93): each regex is a `fullmatch` against the whitespace-collapsed line,
tried in order (`FORMAT x.y`, `COORDINATES (ABSOLUTE|.*)`,
`OUTPUT-UNITS (METRIC|ENGLISH|INCHES)`, `SUPPRESS-LEAD-ZEROES (YES|NO)`,
`SUPPRESS-TRAIL-ZEROES (YES|NO)`); the state is the settings object being
mutated plus the two local suppression flags. -/
def allegro_ncparam_line (acc : FSettings × Bool × Bool) (line : String) :
    FSettings × Bool × Bool :=
  let (s, lz_supp, tz_supp) := acc
  let line := collapse_ws line
  if startsWithStr line "FORMAT " then
    let fmt := strDrop line 7
    match (splitOnChar '.' fmt.data).map String.mk with
    | [x, y] =>
        if isDigits x && isDigits y then
          ({ s with number_format := (some (digitsToNat x), some (digitsToNat y)) },
            lz_supp, tz_supp)
        else (s, lz_supp, tz_supp)
    | _ => (s, lz_supp, tz_supp)
  else if startsWithStr line "COORDINATES " then
    ({ s with notation_mode := strLower (strDrop line 12) }, lz_supp, tz_supp)
  else if line = "OUTPUT-UNITS METRIC" then
    ({ s with unit := some .mm }, lz_supp, tz_supp)
  else if line = "OUTPUT-UNITS ENGLISH" ∨ line = "OUTPUT-UNITS INCHES" then
    ({ s with unit := some .inch }, lz_supp, tz_supp)
  else if line = "SUPPRESS-LEAD-ZEROES YES" then (s, true, tz_supp)
  else if line = "SUPPRESS-LEAD-ZEROES NO" then (s, false, tz_supp)
  else if line = "SUPPRESS-TRAIL-ZEROES YES" then (s, lz_supp, true)
  else if line = "SUPPRESS-TRAIL-ZEROES NO" then (s, lz_supp, false)
  else (s, lz_supp, tz_supp)

/-- `excellon.py` `parse_allegro_ncparam(data, settings=None)` (lines
63-99).  Python mutates the `settings` argument in place and falls off the
end, implicitly returning `None`; the embedding returns the pair
(post-state of the `settings` argument, Python return value).  When called
with `settings=None` — which is how `ExcellonFile.open` calls it — the
first statement executed is `self.settings = FileSettings(...)` (line 70),
and `self` is not defined in this module-level function, so the call raises
`NameError` before parsing anything. -/
def parse_allegro_ncparam (data : String) (settings : Option FSettings) :
    Except String (Option FSettings × Option FSettings) :=
  match settings with
  | none => .error "NameError: name 'self' is not defined"
  | some s =>
      let (s, lz_supp, tz_supp) :=
        (splitLines data).foldl allegro_ncparam_line (s, false, false)
      if lz_supp && tz_supp then
        .error "SyntaxError: Allegro Excellon parameters specify both leading and trailing zero suppression."
      else
        .ok (some { s with zeros := some (if lz_supp then "leading" else "trailing") }, none)

/-- The settings-discovery stage of `ExcellonFile.open` (excellon.py lines
161-173): when no settings were provided and a sidecar file
(`nc_param.txt`, else `ncdrill.log`) exists next to the drill file, the
code runs `settings = parse_allegro_ncparam(param_file.read_text())` and
passes the resulting `settings` on to `from_string`.  The embedding takes
the sidecar's text (already resolved to the first file found, or `none`)
and produces the `settings` value `from_string` would receive. -/
def excellon_open_settings (settings : Option FSettings) (sidecar : Option String) :
    Except String (Option FSettings) :=
  match settings with
  | some s => .ok (some s)
  | none =>
      match sidecar with
      | none => .ok none
      | some data => (parse_allegro_ncparam data none).map (·.2)

/-- The Allegro sidecar file of scenario S4. -/
def s4_ncparam : String :=
  "FORMAT 2.4\nCOORDINATES ABSOLUTE\nOUTPUT-UNITS METRIC\nSUPPRESS-LEAD-ZEROES NO\nSUPPRESS-TRAIL-ZEROES YES"

/-! ## Claim C1 — `open()` with an Allegro `nc_param.txt` sidecar -/

/-- **C1, code bug.** The claim (scenario S4) says opening a drill file
with an `nc_param.txt` sidecar and no explicit settings succeeds using the
sidecar-discovered settings (2.4, trailing suppression, absolute, mm).  In
the code, `open` calls `parse_allegro_ncparam` with no settings object;
that function immediately executes `self.settings = FileSettings(...)` in
which `self` is undefined, raising `NameError` — and even on the path where
a settings object exists, the function returns `None`, so `open`'s
assignment `settings = parse_allegro_ncparam(...)` would discard the
discovered settings.  The theorem evaluates both facts at the S4 sidecar:
the settings-discovery stage of `open` errors, and the parsing body, handed
a fresh settings object, does discover exactly the claimed settings yet
still returns `None` as the function's value. -/
theorem C1_sidecar_discovery_crashes :
    excellon_open_settings none (some s4_ncparam) =
      .error "NameError: name 'self' is not defined" ∧
    parse_allegro_ncparam s4_ncparam (some {}) =
      .ok (some { unit := some .mm, notation_mode := "absolute",
                  zeros := some "trailing", number_format := (some 2, some 4) },
           none) := by
  constructor
  · rfl
  · rfl

/-! ## Number codec (`cam.py` `FileSettings.parse_gerber_value` /
`write_gerber_value`, spec §4.1) -/

/-- Zero-suppression choices (spec §3.1: leading | trailing | none). -/
inductive ZeroSupp where
  | leading
  | trailing
  | nosupp
deriving DecidableEq, Repr

/-- The character for a decimal digit value. -/
def digitChar48 (d : ℕ) : Char := Char.ofNat (d + 48)

/-- Big-endian (most significant first) decimal digits of a natural. -/
def natDigitsBE (n : ℕ) : List ℕ := (Nat.digits 10 n).reverse

/-- Left-pad a digit list with zeros to width `w`. -/
def padLeftZeros (w : ℕ) (ds : List ℕ) : List ℕ :=
  List.replicate (w - ds.length) 0 ++ ds

/-- Interpret a big-endian digit list as a natural. -/
def ofDigitsBE (ds : List ℕ) : ℕ := ds.foldl (fun a d => 10 * a + d) 0

/-- Spec §4.1 "zero-suppress per rule": *leading* suppression drops leading
zeros, *trailing* suppression drops trailing zeros, *none* keeps the fixed
width. -/
def zeroSuppress (zeros : ZeroSupp) (mag : List ℕ) : List ℕ :=
  match zeros with
  | .leading => mag.dropWhile (· = 0)
  | .trailing => (mag.reverse.dropWhile (· = 0)).reverse
  | .nosupp => mag

/-- Modelled from the spec: the number-codec emitter
(`FileSettings.write_gerber_value`; `cam.py` is not under `src/`).
Spec §4.1 emit contract: "Given a value, integer/fractional digit counts,
and the caller-chosen suppression: emit a fixed-width string where the
implied decimal point falls between the integer and fractional parts;
zero-suppress per rule; always include sign for negatives only."  The
value is scaled by `10^fractional_digits` and written as
`integer_digits + fractional_digits` decimal digits; *leading*
suppression drops leading zeros, *trailing* suppression drops trailing
zeros, *none* keeps the fixed width.  (The XNC-mode explicit decimal
point is a separate emitter, `write_xnc_value` below.) -/
def write_gerber_value (integer_digits fractional_digits : ℕ) (zeros : ZeroSupp)
    (value : ℚ) : String :=
  let n : ℤ := ⌊value * 10 ^ fractional_digits⌋
  let mag := padLeftZeros (integer_digits + fractional_digits) (natDigitsBE n.natAbs)
  String.mk ((if n < 0 then ['-'] else []) ++ (zeroSuppress zeros mag).map digitChar48)

/-- Parse-contract step 1 (spec §4.1): "Strip leading sign; remember it." -/
def stripSign : List Char → Bool × List Char
  | '-' :: rest => (true, rest)
  | '+' :: rest => (false, rest)
  | rest => (false, rest)

/-- Modelled from the spec: the number-codec parser
(`FileSettings.parse_gerber_value`; `cam.py` is not under `src/`).
Spec §4.1 parse contract, step by step: strip and remember the sign; if
the string contains `.`, split there, pad/truncate each side per format
and combine (this path ignores zero-suppression); else zero-pad per the
zero-suppression rule (*leading* suppression left-pads to
`integer_digits + fractional_digits`, *trailing* suppression right-pads,
*none* requires the exact width); interpret as an integer and divide by
`10^fractional_digits`; if both digit counts are unknown and there is no
decimal point, fail with `NumberFormatUnknown`. -/
def parse_gerber_value (number_format : Option ℕ × Option ℕ) (zeros : ZeroSupp)
    (s : String) : Except String ℚ :=
  let (neg, ds) := stripSign s.data
  if ds.any (· = '.') then
    -- explicit decimal point: split there; this path ignores zero-suppression
    let intpart := ds.takeWhile (· ≠ '.')
    let fracpart := (ds.dropWhile (· ≠ '.')).drop 1
    if intpart.all (·.isDigit) && fracpart.all (·.isDigit) then
      let f := (number_format.2).getD fracpart.length
      let i := (number_format.1).getD intpart.length
      let intds := (intpart.map (fun c => c.toNat - 48)).reverse.take i |>.reverse
      let fracds :=
        (fracpart.map (fun c => c.toNat - 48)).take f
          ++ List.replicate (f - fracpart.length) 0
      let n : ℕ := ofDigitsBE (intds ++ fracds)
      .ok ((if neg then -1 else 1) * (n : ℚ) / 10 ^ f)
    else .error "SyntaxError: invalid coordinate string"
  else
    match number_format with
    | (some integer_digits, some fractional_digits) =>
        if ds.all (·.isDigit) then
          let w := integer_digits + fractional_digits
          let raw := ds.map fun c => c.toNat - 48
          let full :=
            match zeros with
            | .leading => padLeftZeros w raw
            | .trailing => raw ++ List.replicate (w - raw.length) 0
            | .nosupp => raw
          if zeros = .nosupp ∧ raw.length ≠ w then
            .error "SyntaxError: coordinate string has wrong width"
          else
            .ok ((if neg then -1 else 1) * (ofDigitsBE full : ℚ) / 10 ^ fractional_digits)
        else .error "SyntaxError: invalid coordinate string"
    | _ => .error "NumberFormatUnknown: file has no number format and value has no decimal point"

/-! Digit-list lemmas for the codec round trip. -/

/-- Evaluating the digit fold from an accumulator. -/
theorem ofDigitsBE_go (a : ℕ) (l : List ℕ) :
    l.foldl (fun x d => 10 * x + d) a = a * 10 ^ l.length + ofDigitsBE l := by
  induction l generalizing a with
  | nil => simp [ofDigitsBE]
  | cons d l ih =>
      show (l.foldl (fun x d => 10 * x + d) (10 * a + d)) = _
      rw [ih (10 * a + d)]
      have : ofDigitsBE (d :: l) = d * 10 ^ l.length + ofDigitsBE l := by
        show (l.foldl (fun x d => 10 * x + d) (10 * 0 + d)) = _
        rw [ih (10 * 0 + d)]
        ring
      rw [this]
      simp [List.length_cons]
      ring

/-- Leading zeros do not change the interpreted value. -/
theorem ofDigitsBE_replicate_zero (k : ℕ) (l : List ℕ) :
    ofDigitsBE (List.replicate k 0 ++ l) = ofDigitsBE l := by
  induction k with
  | zero => simp
  | succ k ih =>
      show ofDigitsBE (0 :: (List.replicate k 0 ++ l)) = _
      unfold ofDigitsBE at ih ⊢
      simpa using ih

/-- `ofDigitsBE` inverts `natDigitsBE`. -/
theorem ofDigitsBE_natDigitsBE (n : ℕ) : ofDigitsBE (natDigitsBE n) = n := by
  have key : ∀ l : List ℕ, ofDigitsBE l.reverse = Nat.ofDigits 10 l := by
    intro l
    induction l with
    | nil => rfl
    | cons d l ih =>
        rw [List.reverse_cons]
        unfold ofDigitsBE
        rw [List.foldl_append]
        show (10 * (ofDigitsBE l.reverse) + d) = _
        rw [ih, Nat.ofDigits_cons]
        ring
  rw [natDigitsBE, key, Nat.ofDigits_digits]

/-- Every digit produced by `natDigitsBE` is below 10. -/
theorem natDigitsBE_lt (n : ℕ) : ∀ d ∈ natDigitsBE n, d < 10 := by
  intro d hd
  rw [natDigitsBE, List.mem_reverse] at hd
  exact Nat.digits_lt_base (by norm_num) hd

/-- `natDigitsBE n` has at most `w` digits when `n < 10 ^ w`. -/
theorem natDigitsBE_length_le (n w : ℕ) (h : n < 10 ^ w) :
    (natDigitsBE n).length ≤ w := by
  rw [natDigitsBE, List.length_reverse]
  by_contra hgt
  push_neg at hgt
  rcases Nat.eq_zero_or_pos n with hn | hn
  · rw [hn] at hgt
    simp at hgt
  · have h1 : 10 ^ (Nat.digits 10 n).length ≤ 10 * n :=
      Nat.base_pow_length_digits_le 10 n (by norm_num) (Nat.pos_iff_ne_zero.mp hn)
    have h2 : 10 ^ (w + 1) ≤ 10 ^ (Nat.digits 10 n).length :=
      Nat.pow_le_pow_right (by norm_num) hgt
    have h3 : 10 ^ (w + 1) ≤ 10 * n := le_trans h2 h1
    rw [pow_succ] at h3
    omega

/-- Re-padding after stripping leading zeros restores the original list. -/
theorem padLeft_dropWhile_zero (l : List ℕ) :
    padLeftZeros l.length (l.dropWhile (· = 0)) = l := by
  have hsplit := List.takeWhile_append_dropWhile (p := fun d => decide (d = 0)) (l := l)
  have htake : l.takeWhile (fun d => decide (d = 0)) =
      List.replicate (l.takeWhile (fun d => decide (d = 0))).length 0 := by
    apply List.eq_replicate_of_mem
    intro d hd
    have := List.mem_takeWhile_imp hd
    simpa using this
  have hlen : l.length = (l.takeWhile (fun d => decide (d = 0))).length
      + (l.dropWhile (fun d => decide (d = 0))).length := by
    conv_lhs => rw [← hsplit]
    rw [List.length_append]
  rw [padLeftZeros]
  have : l.length - (l.dropWhile (· = 0)).length
      = (l.takeWhile (fun d => decide (d = 0))).length := by
    omega
  rw [this]
  conv_rhs => rw [← hsplit]
  rw [← htake]

/-- Re-padding after stripping trailing zeros restores the original list. -/
theorem padRight_dropWhile_zero (l : List ℕ) :
    (l.reverse.dropWhile (· = 0)).reverse
      ++ List.replicate (l.length - (l.reverse.dropWhile (· = 0)).reverse.length) 0 = l := by
  have h := padLeft_dropWhile_zero l.reverse
  rw [padLeftZeros] at h
  have := congrArg List.reverse h
  rw [List.reverse_append, List.reverse_replicate, List.reverse_reverse] at this
  simpa [List.length_reverse] using this

/-- Digit characters are recognised by `Char.isDigit`. -/
theorem digitChar48_isDigit {d : ℕ} (h : d < 10) : (digitChar48 d).isDigit = true := by
  interval_cases d <;> decide

/-- Converting a digit character back to its value. -/
theorem digitChar48_toNat {d : ℕ} (h : d < 10) : (digitChar48 d).toNat - 48 = d := by
  interval_cases d <;> decide

/-- Digit characters are not the decimal point. -/
theorem digitChar48_ne_dot {d : ℕ} (h : d < 10) : digitChar48 d ≠ '.' := by
  interval_cases d <;> decide

/-- A digit-character list starts with neither `-` nor `+`. -/
theorem stripSign_digitChars (body : List ℕ) (hlt : ∀ d ∈ body, d < 10) :
    stripSign (body.map digitChar48) = (false, body.map digitChar48) := by
  cases body with
  | nil => rfl
  | cons d l =>
      have hd : d < 10 := hlt d (by simp)
      simp only [List.map_cons]
      interval_cases d <;> rfl

/-- A digit-character list contains no decimal point. -/
theorem digitChars_no_dot (body : List ℕ) (hlt : ∀ d ∈ body, d < 10) :
    (body.map digitChar48).any (· = '.') = false := by
  rw [List.any_eq_false]
  intro c hc
  rcases List.mem_map.mp hc with ⟨d, hd, rfl⟩
  simpa using digitChar48_ne_dot (hlt d hd)

/-- A digit-character list passes the digit check. -/
theorem digitChars_all_digit (body : List ℕ) (hlt : ∀ d ∈ body, d < 10) :
    (body.map digitChar48).all (·.isDigit) = true := by
  rw [List.all_eq_true]
  intro c hc
  rcases List.mem_map.mp hc with ⟨d, hd, rfl⟩
  simpa using digitChar48_isDigit (hlt d hd)

/-- Converting a digit-character list back to its digit values. -/
theorem digitChars_back (body : List ℕ) (hlt : ∀ d ∈ body, d < 10) :
    (body.map digitChar48).map (fun c => c.toNat - 48) = body := by
  rw [List.map_map]
  have : ∀ d ∈ body, ((fun c => c.toNat - 48) ∘ digitChar48) d = id d := by
    intro d hd
    simpa using digitChar48_toNat (hlt d hd)
  rw [List.map_congr_left this, List.map_id]

/-- The zero-suppressed body only contains digits of the original. -/
theorem zeroSuppress_subset (zeros : ZeroSupp) (mag : List ℕ) :
    ∀ d ∈ zeroSuppress zeros mag, d ∈ mag := by
  intro d hd
  cases zeros with
  | leading => exact (List.dropWhile_sublist _).mem hd
  | trailing =>
      rw [zeroSuppress, List.mem_reverse] at hd
      have := (List.dropWhile_sublist (· = 0)).mem hd
      rwa [List.mem_reverse] at this
  | nosupp => exact hd

/-- Parsing the emitted digit body under the matching format restores the
scaled magnitude. -/
theorem parse_emitted_body (integer_digits fractional_digits : ℕ) (zeros : ZeroSupp)
    (neg : Bool) (mag : List ℕ)
    (hlen : mag.length = integer_digits + fractional_digits)
    (hlt : ∀ d ∈ mag, d < 10) :
    parse_gerber_value (some integer_digits, some fractional_digits) zeros
        (String.mk ((if neg then ['-'] else [])
          ++ (zeroSuppress zeros mag).map digitChar48)) =
      .ok ((if neg then (-1 : ℚ) else 1) * (ofDigitsBE mag : ℚ) / 10 ^ fractional_digits) := by
  have hbodylt : ∀ d ∈ zeroSuppress zeros mag, d < 10 :=
    fun d hd => hlt d (zeroSuppress_subset zeros mag d hd)
  have hstrip : stripSign ((if neg then ['-'] else [])
      ++ (zeroSuppress zeros mag).map digitChar48) =
      (neg, (zeroSuppress zeros mag).map digitChar48) := by
    cases neg with
    | false => exact stripSign_digitChars _ hbodylt
    | true => rfl
  rw [parse_gerber_value]
  simp only [hstrip, digitChars_no_dot _ hbodylt, Bool.false_eq_true, if_false,
    digitChars_all_digit _ hbodylt, if_true, digitChars_back _ hbodylt]
  cases zeros with
  | leading =>
      have hpad : padLeftZeros (integer_digits + fractional_digits)
          (zeroSuppress .leading mag) = mag := by
        rw [← hlen, zeroSuppress]
        exact padLeft_dropWhile_zero mag
      simp [hpad]
  | trailing =>
      have hpad : zeroSuppress .trailing mag
          ++ List.replicate ((integer_digits + fractional_digits)
              - (zeroSuppress .trailing mag).length) 0 = mag := by
        rw [← hlen, zeroSuppress]
        exact padRight_dropWhile_zero mag
      simp [hpad]
  | nosupp =>
      simp [zeroSuppress, hlen]

/-! ## Claim C7 — number codec round trip -/

/-- **C7.** For every number format
`fmt = (integer_digits, fractional_digits, zero_suppression)` and every
value `v` exactly representable in `fmt` (that is, `v = n / 10^f` with
`|n| < 10^(i+f)`), parsing the string produced by the number-codec emitter
for `v` under `fmt` yields `v` again: `parse(emit(v, fmt), fmt) == v`. -/
theorem C7_number_codec_roundtrip
    (integer_digits fractional_digits : ℕ) (zeros : ZeroSupp) (n : ℤ)
    (h : n.natAbs < 10 ^ (integer_digits + fractional_digits)) :
    parse_gerber_value (some integer_digits, some fractional_digits) zeros
        (write_gerber_value integer_digits fractional_digits zeros
          ((n : ℚ) / 10 ^ fractional_digits)) =
      .ok ((n : ℚ) / 10 ^ fractional_digits) := by
  have hfloor : ⌊((n : ℚ) / 10 ^ fractional_digits) * 10 ^ fractional_digits⌋ = n := by
    rw [div_mul_cancel₀]
    · exact Int.floor_intCast n
    · positivity
  have hmaglen : (padLeftZeros (integer_digits + fractional_digits)
      (natDigitsBE n.natAbs)).length = integer_digits + fractional_digits := by
    have := natDigitsBE_length_le n.natAbs (integer_digits + fractional_digits) h
    simp only [padLeftZeros, List.length_append, List.length_replicate]
    omega
  have hmaglt : ∀ d ∈ padLeftZeros (integer_digits + fractional_digits)
      (natDigitsBE n.natAbs), d < 10 := by
    intro d hd
    rcases List.mem_append.mp hd with h0 | h1
    · have := List.eq_of_mem_replicate h0
      omega
    · exact natDigitsBE_lt _ d h1
  have hofmag : ofDigitsBE (padLeftZeros (integer_digits + fractional_digits)
      (natDigitsBE n.natAbs)) = n.natAbs := by
    rw [padLeftZeros, ofDigitsBE_replicate_zero, ofDigitsBE_natDigitsBE]
  rw [write_gerber_value]
  simp only [hfloor]
  by_cases hneg : n < 0
  · rw [if_pos hneg]
    have hp := parse_emitted_body integer_digits fractional_digits zeros true
      (padLeftZeros (integer_digits + fractional_digits) (natDigitsBE n.natAbs))
      hmaglen hmaglt
    rw [if_pos rfl] at hp
    rw [hp, hofmag]
    have habs : ((n.natAbs : ℚ)) = -(n : ℚ) := by
      rw [Int.cast_natAbs, abs_of_neg hneg]
      push_cast
      ring
    rw [habs]
    congr 1
    norm_num
  · rw [if_neg hneg]
    have hp := parse_emitted_body integer_digits fractional_digits zeros false
      (padLeftZeros (integer_digits + fractional_digits) (natDigitsBE n.natAbs))
      hmaglen hmaglt
    rw [if_neg (by simp)] at hp
    rw [hp, hofmag]
    have habs : ((n.natAbs : ℚ)) = (n : ℚ) := by
      rw [Int.cast_natAbs, abs_of_nonneg (not_lt.mp hneg)]
    rw [habs]
    congr 1
    norm_num

/-- Witness for C7: the S4-style value 10.0000 in a (2,4) trailing-suppression
format survives the round trip. -/
theorem C7_witness :
    ((100000 : ℤ).natAbs < 10 ^ (2 + 4)) ∧
    parse_gerber_value (some 2, some 4) .trailing
        (write_gerber_value 2 4 .trailing (((100000 : ℤ) : ℚ) / 10 ^ 4)) =
      .ok (((100000 : ℤ) : ℚ) / 10 ^ 4) :=
  ⟨by decide, C7_number_codec_roundtrip 2 4 .trailing 100000 (by decide)⟩

/-! ## XNC emitter (`excellon.py` `ExcellonFile._generate_statements`) -/

/-- Python's ordering of booleans (`False < True`). -/
def cmpBool : Bool → Bool → Ordering
  | false, false => .eq
  | false, true => .lt
  | true, false => .gt
  | true, true => .eq

/-- Python's ordering of floats (modelled on `ℚ`). -/
def cmpQ (a b : ℚ) : Ordering :=
  if a < b then .lt else if a = b then .eq else .gt

/-- Python comparison of two optionally-`None` values, as it happens inside
tuple comparison: `None == None` holds, but ordering `None` against a real
value raises `TypeError` (`'<' not supported between instances of 'NoneType'
and ...`). -/
def pyCmpOpt {α : Type} (cmp : α → α → Ordering) :
    Option α → Option α → Except String Ordering
  | none, none => .ok .eq
  | some a, some b => .ok (cmp a b)
  | none, some _ => .error "TypeError: '<' not supported between instances of 'NoneType' and a value"
  | some _, none => .error "TypeError: '<' not supported between instances of a value and 'NoneType'"

/-- Lexicographic chaining of component comparisons: a strict first
component decides; an equal first component defers to the rest (Python
tuple comparison compares `==` first and only consults `<` — which may
raise — on the deciding component). -/
def lexCmp (c1 c2 : Except String Ordering) : Except String Ordering :=
  match c1 with
  | .error e => .error e
  | .ok .eq => c2
  | .ok c => .ok c

/-- Python comparison of the tool sort key
`(tool.plated, tool.diameter, tool.depth_offset)` (excellon.py line 195):
tuple comparison works left to right, skipping equal components. -/
def toolKeyCmp (t u : ExcellonTool) : Except String Ordering :=
  lexCmp (pyCmpOpt cmpBool t.plated u.plated)
    (lexCmp (pyCmpOpt cmpQ t.diameter u.diameter)
      (pyCmpOpt cmpQ t.depth_offset u.depth_offset))

/-- "Key of `t` does not sort after key of `u`" — the comparison the stable
sort consults. -/
def toolKeyLe (t u : ExcellonTool) : Except String Bool :=
  match toolKeyCmp t u with
  | .error e => .error e
  | .ok c => .ok (c ≠ .gt)

/-- Two tools have Python-comparable sort keys. -/
def KeyComparable (t u : ExcellonTool) : Prop :=
  ∃ c, toolKeyCmp t u = .ok c

theorem cmpBool_swap (a b : Bool) : cmpBool b a = (cmpBool a b).swap := by
  cases a <;> cases b <;> rfl

theorem cmpQ_swap (a b : ℚ) : cmpQ b a = (cmpQ a b).swap := by
  unfold cmpQ
  rcases lt_trichotomy a b with h | h | h
  · rw [if_neg (not_lt.mpr (le_of_lt h)), if_neg (ne_of_gt h), if_pos h]
    rfl
  · subst h
    rw [if_neg (lt_irrefl a), if_pos rfl]
    rfl
  · rw [if_pos h, if_neg (not_lt.mpr (le_of_lt h)), if_neg (ne_of_gt h)]
    rfl

theorem pyCmpOpt_swap {α : Type} (cmp : α → α → Ordering)
    (hswap : ∀ a b, cmp b a = (cmp a b).swap)
    (o1 o2 : Option α) (c : Ordering) (h : pyCmpOpt cmp o1 o2 = .ok c) :
    pyCmpOpt cmp o2 o1 = .ok c.swap := by
  cases o1 with
  | none =>
      cases o2 with
      | none =>
          injection h with h
          rw [← h]
          rfl
      | some b => exact Except.noConfusion h
  | some a =>
      cases o2 with
      | none => exact Except.noConfusion h
      | some b =>
          injection h with h
          show Except.ok (cmp b a) = Except.ok c.swap
          rw [hswap a b, h]

theorem lexCmp_swap (x y x' y' : Except String Ordering)
    (hx : ∀ c, x = .ok c → x' = .ok c.swap)
    (hy : ∀ c, y = .ok c → y' = .ok c.swap)
    (c : Ordering) (h : lexCmp x y = .ok c) : lexCmp x' y' = .ok c.swap := by
  cases x with
  | error e => exact Except.noConfusion h
  | ok cx =>
      cases cx with
      | eq =>
          have hx' := hx .eq rfl
          have : lexCmp x' y' = y' := by rw [hx']; rfl
          rw [this]
          exact hy c h
      | lt =>
          injection h with h
          rw [hx .lt rfl, ← h]
          rfl
      | gt =>
          injection h with h
          rw [hx .gt rfl, ← h]
          rfl

/-- Reversing the operands of a successful key comparison swaps the result. -/
theorem toolKeyCmp_swap (t u : ExcellonTool) (c : Ordering)
    (h : toolKeyCmp t u = .ok c) : toolKeyCmp u t = .ok c.swap := by
  unfold toolKeyCmp at h ⊢
  refine lexCmp_swap _ _ _ _ ?_ ?_ c h
  · exact pyCmpOpt_swap cmpBool cmpBool_swap _ _
  · intro c' h'
    refine lexCmp_swap _ _ _ _ ?_ ?_ c' h'
    · exact pyCmpOpt_swap cmpQ cmpQ_swap _ _
    · exact pyCmpOpt_swap cmpQ cmpQ_swap _ _

/-- With comparable keys, `toolKeyLe` is total: either `t` may precede `u`,
or `u` may precede `t` (and in the strict case the reverse comparison also
succeeds). -/
theorem toolKeyLe_total (t u : ExcellonTool) (h : KeyComparable t u) :
    toolKeyLe t u = .ok true ∨
      (toolKeyLe t u = .ok false ∧ toolKeyLe u t = .ok true) := by
  obtain ⟨c, hc⟩ := h
  have hswap := toolKeyCmp_swap t u c hc
  cases c with
  | lt => left; rw [toolKeyLe, hc]; rfl
  | eq => left; rw [toolKeyLe, hc]; rfl
  | gt =>
      right
      constructor
      · rw [toolKeyLe, hc]; rfl
      · rw [toolKeyLe, hswap]; rfl

/-- Stable insertion into a sorted list, propagating comparison errors
(models the behaviour of Python's stable `sorted` on lists whose performed
comparisons succeed; on the two-element lists of the counterexamples both
algorithms perform exactly the one comparison that raises). -/
def insertSortedE {α : Type} (le : α → α → Except String Bool) (x : α) :
    List α → Except String (List α)
  | [] => .ok [x]
  | y :: ys =>
      match le x y with
      | .error e => .error e
      | .ok true => .ok (x :: y :: ys)
      | .ok false =>
          match insertSortedE le x ys with
          | .error e => .error e
          | .ok rest => .ok (y :: rest)

/-- Stable insertion sort in the `Except` monad. -/
def isortE {α : Type} (le : α → α → Except String Bool) : List α → Except String (List α)
  | [] => .ok []
  | x :: xs =>
      match isortE le xs with
      | .error e => .error e
      | .ok rest => insertSortedE le x rest

/-- Inserting into a sorted list with a comparator that is total on the
elements involved succeeds, permutes, and keeps adjacent sortedness. -/
theorem insertSortedE_total {α : Type} (le : α → α → Except String Bool) (x : α)
    (l : List α)
    (hok : ∀ y ∈ l, le x y = .ok true ∨ (le x y = .ok false ∧ le y x = .ok true))
    (hchain : l.Chain' (fun a b => le a b = .ok true)) :
    ∃ m, insertSortedE le x l = .ok m ∧ m.Perm (x :: l) ∧
      m.Chain' (fun a b => le a b = .ok true) ∧
      (m.head? = some x ∨ m.head? = l.head?) := by
  induction l with
  | nil => exact ⟨[x], rfl, List.Perm.refl _, List.chain'_singleton x, Or.inl rfl⟩
  | cons y ys ih =>
      rcases hok y (by simp) with hxy | ⟨hxy, hyx⟩
      · refine ⟨x :: y :: ys, ?_, List.Perm.refl _, ?_, Or.inl rfl⟩
        · simp [insertSortedE, hxy]
        · exact List.chain'_cons.mpr ⟨hxy, hchain⟩
      · obtain ⟨m', hins, hperm, hchain', hhead⟩ :=
          ih (fun z hz => hok z (by simp [hz])) hchain.tail
        refine ⟨y :: m', ?_, ?_, ?_, Or.inr rfl⟩
        · simp [insertSortedE, hxy, hins]
        · exact ((hperm.cons y).trans (List.Perm.swap x y ys)).trans (List.Perm.refl _)
        · refine List.chain'_cons'.mpr ⟨?_, hchain'⟩
          intro z hz
          rcases hhead with hh | hh
          · rw [hh] at hz
            injection hz with hz
            rw [← hz]
            exact hyx
          · rw [hh] at hz
            cases ys with
            | nil => exact absurd hz (by simp)
            | cons y' ys' =>
                injection hz with hz
                rw [← hz]
                exact (List.chain'_cons.mp hchain).1

/-- Insertion sort with a comparator that is total on the list's elements
succeeds and returns an adjacent-sorted permutation. -/
theorem isortE_total {α : Type} (le : α → α → Except String Bool) (l : List α)
    (htotal : ∀ x ∈ l, ∀ y ∈ l,
      le x y = .ok true ∨ (le x y = .ok false ∧ le y x = .ok true)) :
    ∃ m, isortE le l = .ok m ∧ m.Perm l ∧
      m.Chain' (fun a b => le a b = .ok true) := by
  induction l with
  | nil => exact ⟨[], rfl, List.Perm.refl _, List.chain'_nil⟩
  | cons x xs ih =>
      obtain ⟨m', hm', hperm, hchain⟩ :=
        ih (fun a ha b hb => htotal a (by simp [ha]) b (by simp [hb]))
      have hok : ∀ y ∈ m', le x y = .ok true ∨ (le x y = .ok false ∧ le y x = .ok true) := by
        intro y hy
        exact htotal x (by simp) y (by simp [hperm.mem_iff.mp hy])
      obtain ⟨m, hins, hperm', hchain', _⟩ := insertSortedE_total le x m' hok hchain
      refine ⟨m, ?_, hperm'.trans (hperm.cons x), hchain'⟩
      rw [isortE, hm']
      exact hins

/-- `f'{n:02d}'`: decimal digits left-padded with zeros to at least width 2. -/
def fmt02 (n : ℕ) : String :=
  String.mk ((padLeftZeros 2 (natDigitsBE n)).map digitChar48)

/-- Modelled from the spec: `FileSettings.write_gerber_value` as the XNC
emitter configures it (`cam.py` is not under `src/`; `to_excellon` sets
`zeros = None`, `number_format = (3,5)`).  Spec §6: XNC output uses
"explicit decimal-point numbers in 3.5 format.  No leading/trailing zero
suppression."  The value is converted into the settings' unit and written
as `<integer digits>.<fractional digits>` with a sign for negatives. -/
def write_xnc_value (settings : FSettings) (value : ℚ) (unit : Option LUnit) : String :=
  let value :=
    match settings.unit with
    | none => value
    | some u => u.convert_from unit value
  let i := settings.number_format.1.getD 3
  let f := settings.number_format.2.getD 5
  let n : ℤ := ⌊value * 10 ^ f⌋
  let mag := padLeftZeros (i + f) (natDigitsBE n.natAbs)
  String.mk ((if n < 0 then ['-'] else [])
    ++ (mag.take i).map digitChar48 ++ ['.'] ++ (mag.drop i).map digitChar48)

/-- Modelled from the spec: `ExcellonTool.to_xnc(settings)` (`apertures.py`
is not under `src/`): the XNC tool definition body, `C` followed by the
tool diameter written with an explicit decimal point (spec §6 tool block;
a missing diameter is written as 0 here — Python would raise on it, but no
claim depends on that corner). -/
def ExcellonTool.to_xnc (t : ExcellonTool) (settings : FSettings) : String :=
  "C" ++ write_xnc_value settings (t.diameter.getD 0) (some t.unit)

/-- `excellon.py` `ExcellonContext` (lines 34-61).  `tools` maps Python
object identity (`id(tool)`, modelled as `pid`) to the assigned index.
Note that `set_current_point` writes a `current_point` attribute while
`route_mode` reads `self.x, self.y` — which stay `None` forever; the
embedding keeps both, faithfully. -/
structure ExcellonContext where
  settings : FSettings
  tools : List (ℕ × ℕ)
  mode : Option ProgramState := none
  current_tool : Option ExcellonTool := none
  x : Option ℚ := none
  y : Option ℚ := none
  current_point : Option (ℚ × ℚ) := none

/-- `ExcellonContext.select_tool`: emit `T<index:02d>` when the tool changes
(Python `!=` is dataclass equality; a `None` current tool compares
unequal). -/
def ExcellonContext.select_tool (ctx : ExcellonContext) (tool : ExcellonTool) :
    Except String (List String × ExcellonContext) :=
  if ctx.current_tool.elim true (fun t => !(t.value_eq tool)) then
    match ctx.tools.lookup tool.pid with
    | none => .error "KeyError: id(tool)"
    | some index =>
        .ok (["T" ++ fmt02 index], { ctx with current_tool := some tool })
  else .ok ([], ctx)

/-- `ExcellonContext.drill_mode`: emit `G05` when not already drilling. -/
def ExcellonContext.drill_mode (ctx : ExcellonContext) : List String × ExcellonContext :=
  if ctx.mode ≠ some ProgramState.drilling then
    (["G05"], { ctx with mode := some ProgramState.drilling })
  else ([], ctx)

/-- `ExcellonContext.set_current_point(unit, x, y)`:
`self.current_point = self.settings.unit(x, unit), self.settings.unit(y, unit)`
(raises when `settings.unit` is `None`, which is not callable). -/
def ExcellonContext.set_current_point (ctx : ExcellonContext) (unit : Option LUnit)
    (x y : ℚ) : Except String ExcellonContext :=
  match ctx.settings.unit with
  | none => .error "TypeError: 'NoneType' object is not callable"
  | some u => .ok { ctx with current_point := some (u.call x unit, u.call y unit) }

/-- `graphic_objects.py` `Flash.to_xnc(ctx)`: tool selection, drill mode,
then `X<x>Y<y>`, then update the context's current point. -/
def Flash.to_xnc (fl : Flash ExcellonTool) (ctx : ExcellonContext) :
    Except String (List String × ExcellonContext) :=
  match ctx.select_tool fl.aperture with
  | .error e => .error e
  | .ok (ts, ctx) =>
      let (ds, ctx) := ctx.drill_mode
      let x := write_xnc_value ctx.settings fl.x fl.unit
      let y := write_xnc_value ctx.settings fl.y fl.unit
      match ctx.set_current_point fl.unit fl.x fl.y with
      | .error e => .error e
      | .ok ctx => .ok (ts ++ ds ++ ["X" ++ x ++ "Y" ++ y], ctx)

/-- `graphic_objects.py` `Line.to_xnc(ctx)`: after tool selection it calls
`ctx.route_mode(self.unit, *self.p1)`, whose first statement is
`x, y = self.unit(x, unit), self.unit(y, unit)` (excellon.py line 53) —
and `ExcellonContext` defines no attribute `unit`, so this raises
`AttributeError` unconditionally. -/
def Line.to_xnc (l : Line ExcellonTool) (ctx : ExcellonContext) :
    Except String (List String × ExcellonContext) :=
  match ctx.select_tool l.aperture with
  | .error e => .error e
  | .ok _ => .error "AttributeError: 'ExcellonContext' object has no attribute 'unit'"

/-- `graphic_objects.py` `Arc.to_xnc(ctx)`: same `route_mode` call, same
`AttributeError`. -/
def Arc.to_xnc (a : Arc ExcellonTool) (ctx : ExcellonContext) :
    Except String (List String × ExcellonContext) :=
  match ctx.select_tool a.aperture with
  | .error e => .error e
  | .ok _ => .error "AttributeError: 'ExcellonContext' object has no attribute 'unit'"

/-- Dispatch of `obj.to_xnc(ctx)` over the object variants. -/
def ExcObj.to_xnc : ExcObj → ExcellonContext → Except String (List String × ExcellonContext)
  | .flash fl => fl.to_xnc
  | .line l => l.to_xnc
  | .arc a => a.to_xnc

/-- `tool_map = {id(obj.tool): obj.tool for obj in self.objects}`
(excellon.py line 194): a dict keyed by object identity, in first-insertion
order (re-inserting an existing key keeps its slot; the value is the same
object). -/
def toolMap (objs : List ExcObj) : List (ℕ × ExcellonTool) :=
  objs.foldl
    (fun acc o =>
      if acc.any (fun p => p.1 = o.tool.pid) then acc else acc ++ [(o.tool.pid, o.tool)])
    []

/-- `excellon.py` line 199: `len({tool.plated for tool in tool_map.values()}) > 1`. -/
def mixedPlating (objs : List ExcObj) : Bool :=
  decide (1 < (((toolMap objs).map fun p => p.2.plated).dedup).length)

/-- The warning text of excellon.py line 204. -/
def tooManyToolsWarning : String :=
  "More than 99 tools defined. Some programs may not like three-digit tool indices."

/-- The warning text of excellon.py line 201. -/
def mixedPlatingWarning : String :=
  "Multiple plating values in same file. Will use non-standard Altium comment syntax to indicate hole plating."

/-- One tool-table entry (excellon.py lines 206-210): the optional
Altium-style plating marker, then `T<index:02d><tool body>`. -/
def toolTableEntry (settings : FSettings) (mixed : Bool) (index : ℕ)
    (tool : ExcellonTool) : List String :=
  (if mixed then [if tool.plated.getD false then ";TYPE=PLATED" else ";TYPE=NON_PLATED"]
   else [])
  ++ ["T" ++ fmt02 index ++ tool.to_xnc settings]

/-- `for obj in self.objects: yield from obj.to_xnc(ctx)` (excellon.py
lines 217-218): thread the context through the objects, concatenating their
emitted statements. -/
def objStatements : List ExcObj → List String × ExcellonContext →
    Except String (List String × ExcellonContext)
  | [], acc => .ok acc
  | o :: os, (lines, ctx) =>
      match o.to_xnc ctx with
      | .error e => .error e
      | .ok (ls, ctx') => objStatements os (lines ++ ls, ctx')

/-- `excellon.py` `ExcellonFile._generate_statements(settings)` (lines
182-220), returning the generated statement list together with the warnings
emitted (`warnings.warn` calls).  The generator yields, in order: the
generator comment, the original comments block, `M48`, the unit statement,
the tool table (sorted by `(plated, diameter, depth_offset)` and re-indexed
from 1, each entry preceded by a plating marker when plating is mixed),
`%`, the per-object statements (threading an `ExcellonContext`), `M30`. -/
def ExcellonFile._generate_statements (f : ExcellonFile) (settings : FSettings) :
    Except String (List String × List String) :=
  let head := ["; XNC file generated by gerbonara"]
      ++ (if f.comments ≠ [] then ["; Comments found in original file:"] else [])
      ++ f.comments.map (";" ++ ·)
      ++ ["M48", if settings.unit = some LUnit.mm then "METRIC" else "INCH"]
  match isortE (fun p q => toolKeyLe p.2 q.2) (toolMap f.objects) with
  | .error e => .error e
  | .ok sorted =>
      let tools := sorted.enumFrom 1
      let mixed := mixedPlating f.objects
      let warns :=
        (if mixed then [mixedPlatingWarning] else [])
        ++ (if tools ≠ [] ∧ 100 ≤ (tools.map Prod.fst).foldl max 0 then [tooManyToolsWarning]
            else [])
      let toolLines := (tools.map fun p => toolTableEntry settings mixed p.1 p.2.2).join
      let ctx : ExcellonContext :=
        { settings := settings, tools := tools.map fun p => (p.2.1, p.1) }
      match objStatements f.objects ([], ctx) with
      | .error e => .error e
      | .ok (objLines, _ctx) =>
          .ok (head ++ toolLines ++ ["%"] ++ objLines ++ ["M30"], warns)

/-! Support lemmas for the XNC emitter theorem. -/

theorem toolMap_step_mono (objs : List ExcObj) (acc : List (ℕ × ExcellonTool))
    (p : ℕ × ExcellonTool) (hp : p ∈ acc) :
    p ∈ objs.foldl
      (fun acc o =>
        if acc.any (fun q => q.1 = o.tool.pid) then acc else acc ++ [(o.tool.pid, o.tool)])
      acc := by
  induction objs generalizing acc with
  | nil => exact hp
  | cons o os ih =>
      rw [List.foldl_cons]
      by_cases h : acc.any (fun q => q.1 = o.tool.pid)
      · rw [if_pos h]
        exact ih acc hp
      · rw [if_neg h]
        exact ih _ (List.mem_append_left _ hp)

theorem toolMap_keys_aux (objs : List ExcObj) (acc : List (ℕ × ExcellonTool)) :
    ∀ o ∈ objs, ∃ t, (o.tool.pid, t) ∈ objs.foldl
      (fun acc o =>
        if acc.any (fun q => q.1 = o.tool.pid) then acc else acc ++ [(o.tool.pid, o.tool)])
      acc := by
  induction objs generalizing acc with
  | nil => intro o ho; exact absurd ho (by simp)
  | cons o' os ih =>
      intro o ho
      rw [List.foldl_cons]
      rcases List.mem_cons.mp ho with rfl | hos
      · by_cases h : acc.any (fun q => q.1 = o.tool.pid)
        · rw [if_pos h]
          obtain ⟨q, hq, hqe⟩ := List.any_eq_true.mp h
          obtain ⟨pid, t⟩ := q
          refine ⟨t, toolMap_step_mono os acc _ ?_⟩
          simp only [decide_eq_true_eq] at hqe
          rw [← hqe]
          exact hq
        · rw [if_neg h]
          exact ⟨o.tool, toolMap_step_mono os _ _ (by simp)⟩
      · by_cases h : acc.any (fun q => q.1 = o'.tool.pid)
        · rw [if_pos h]
          exact ih acc o hos
        · rw [if_neg h]
          exact ih _ o hos

/-- Every object's tool identity appears in the tool map. -/
theorem toolMap_keys (objs : List ExcObj) :
    ∀ o ∈ objs, ∃ t, (o.tool.pid, t) ∈ toolMap objs :=
  fun o ho => toolMap_keys_aux objs [] o ho

theorem lookup_isSome_of_key_mem {α : Type} [DecidableEq α] {β : Type}
    (l : List (α × β)) (a : α) (h : ∃ b, (a, b) ∈ l) : (l.lookup a).isSome := by
  obtain ⟨b, hb⟩ := h
  induction l with
  | nil => exact absurd hb (by simp)
  | cons p ps ih =>
      cases p with
      | mk k v =>
          by_cases he : a = k
          · subst he
            simp [List.lookup]
          · rcases List.mem_cons.mp hb with heq | hps
            · exact absurd (congrArg Prod.fst heq) he
            · have hred : ((k, v) :: ps).lookup a = ps.lookup a := by
                have hbeq : (a == k) = false := beq_eq_false_iff_ne.mpr he
                simp [List.lookup, hbeq]
              rw [hred]
              exact ih hps

/-- `select_tool` succeeds whenever the tool's identity is in the context's
tool map, and changes neither the map, the settings, nor the mode. -/
theorem select_tool_ok (ctx : ExcellonContext) (tool : ExcellonTool)
    (ht : (ctx.tools.lookup tool.pid).isSome) :
    ∃ ts ctx', ctx.select_tool tool = .ok (ts, ctx') ∧
      ctx'.tools = ctx.tools ∧ ctx'.settings = ctx.settings ∧ ctx'.mode = ctx.mode := by
  rw [ExcellonContext.select_tool]
  by_cases hsel : ctx.current_tool.elim true (fun t => !(t.value_eq tool))
  · obtain ⟨index, hidx⟩ := Option.isSome_iff_exists.mp ht
    rw [if_pos hsel, hidx]
    exact ⟨_, _, rfl, rfl, rfl, rfl⟩
  · rw [if_neg hsel]
    exact ⟨_, _, rfl, rfl, rfl, rfl⟩

/-- `drill_mode` never fails and keeps the map and settings. -/
theorem drill_mode_spec (ctx : ExcellonContext) :
    (ctx.drill_mode).2.tools = ctx.tools ∧ (ctx.drill_mode).2.settings = ctx.settings := by
  rw [ExcellonContext.drill_mode]
  by_cases hmode : ctx.mode ≠ some ProgramState.drilling
  · rw [if_pos hmode]
    exact ⟨rfl, rfl⟩
  · rw [if_neg hmode]
    exact ⟨rfl, rfl⟩

/-- `set_current_point` succeeds when the settings have a unit, and keeps the
map and settings. -/
theorem set_current_point_ok (ctx : ExcellonContext) (unit : Option LUnit) (x y : ℚ)
    (hu : ctx.settings.unit.isSome) :
    ∃ ctx', ctx.set_current_point unit x y = .ok ctx' ∧
      ctx'.tools = ctx.tools ∧ ctx'.settings = ctx.settings := by
  obtain ⟨u, hu'⟩ := Option.isSome_iff_exists.mp hu
  rw [ExcellonContext.set_current_point, hu']
  exact ⟨_, rfl, rfl, rfl⟩

/-- `Flash.to_xnc` succeeds whenever the settings have a unit and the tool is
in the context's tool map, and it leaves the map and settings unchanged. -/
theorem flash_to_xnc_ok (fl : Flash ExcellonTool) (ctx : ExcellonContext)
    (hu : ctx.settings.unit.isSome)
    (ht : (ctx.tools.lookup fl.aperture.pid).isSome) :
    ∃ ls ctx', fl.to_xnc ctx = .ok (ls, ctx') ∧
      ctx'.tools = ctx.tools ∧ ctx'.settings = ctx.settings := by
  obtain ⟨ts, ctx1, hsel, ht1, hs1, _⟩ := select_tool_ok ctx fl.aperture ht
  cases hdm : ctx1.drill_mode with
  | mk ds ctx2 =>
      have hd1 : ctx2.tools = ctx1.tools := by
        have := (drill_mode_spec ctx1).1
        rw [hdm] at this
        exact this
      have hd2 : ctx2.settings = ctx1.settings := by
        have := (drill_mode_spec ctx1).2
        rw [hdm] at this
        exact this
      obtain ⟨ctx3, hset, ht3, hs3⟩ :=
        set_current_point_ok ctx2 fl.unit fl.x fl.y (by rw [hd2, hs1]; exact hu)
      refine ⟨ts ++ ds
          ++ ["X" ++ write_xnc_value ctx2.settings fl.x fl.unit
              ++ "Y" ++ write_xnc_value ctx2.settings fl.y fl.unit],
        ctx3, ?_, by rw [ht3, hd1, ht1], by rw [hs3, hd2, hs1]⟩
      unfold Flash.to_xnc
      rw [hsel]
      dsimp only
      rw [hdm]
      dsimp only
      rw [hset]

/-- The object emission loop succeeds on flash-only files whose tools are
all in the context map. -/
theorem objStatements_ok (objs : List ExcObj) (acc : List String) (ctx : ExcellonContext)
    (hflash : ∀ o ∈ objs, ∃ fl, o = ExcObj.flash fl)
    (hu : ctx.settings.unit.isSome)
    (ht : ∀ o ∈ objs, (ctx.tools.lookup o.tool.pid).isSome) :
    ∃ out ctx', objStatements objs (acc, ctx) = .ok (out, ctx') := by
  induction objs generalizing acc ctx with
  | nil => exact ⟨acc, ctx, rfl⟩
  | cons o os ih =>
      obtain ⟨fl, rfl⟩ := hflash o (by simp)
      obtain ⟨ls, ctx', hxnc, htools, hsettings⟩ :=
        flash_to_xnc_ok fl ctx hu (ht (ExcObj.flash fl) (by simp))
      obtain ⟨out, ctx'', hfold⟩ := ih (acc ++ ls) ctx'
        (fun o ho => hflash o (by simp [ho]))
        (by rw [hsettings]; exact hu)
        (fun o ho => by rw [htools]; exact ht o (by simp [ho]))
      refine ⟨out, ctx'', ?_⟩
      unfold objStatements
      dsimp only [ExcObj.to_xnc]
      rw [hxnc]
      exact hfold

/-- The indices assigned by `enumFrom 1` are exactly `1, 2, …, n`. -/
theorem enumFrom_map_fst_range' {α : Type} (n : ℕ) (l : List α) :
    (l.enumFrom n).map Prod.fst = List.range' n l.length := by
  induction l generalizing n with
  | nil => rfl
  | cons x xs ih =>
      simp [List.enumFrom, List.range', ih]

theorem foldl_max_range' (n : ℕ) :
    (List.range' 1 n).foldl max 0 = n := by
  induction n with
  | zero => rfl
  | succ n ih =>
      rw [List.range'_1_concat, List.foldl_append, ih]
      simp [Nat.max_def]
      omega

/-! ## Claim C6 — XNC emitter output structure -/

/-- The settings `to_excellon` uses by default: unit kept, no zero
suppression, 3.5 number format (excellon.py lines 225-231). -/
def xncSettings : FSettings :=
  { unit := some .mm, notation_mode := "absolute", zeros := none,
    number_format := (some 3, some 5) }

/-- A 0.3 mm tool of unknown plating. -/
def toolPlatedUnknown : ExcellonTool :=
  { pid := 0, diameter := some (3/10), plated := none, unit := .mm }

/-- A 0.3 mm plated tool. -/
def toolPlated : ExcellonTool :=
  { pid := 1, diameter := some (3/10), plated := some true, unit := .mm }

/-- A drill file whose two hits use one unknown-plating and one plated tool. -/
def mixedUnknownFile : ExcellonFile :=
  { objects :=
      [.flash { x := 1, y := 1, aperture := toolPlatedUnknown, unit := some .mm },
       .flash { x := 2, y := 2, aperture := toolPlated, unit := some .mm }] }

/-- A drill file containing a single routed slot (a `Line` object). -/
def slotFile : ExcellonFile :=
  { objects :=
      [.line { x1 := 0, y1 := 0, x2 := 1, y2 := 0, aperture := toolPlated, unit := some .mm }] }

/-- **C6, counterexample.** The claim quantifies over *every* `ExcellonFile`,
but the emitter crashes on two kinds of legitimate files: (1) when the tool
sort key compares an unknown (`None`) plating against a known one, Python's
tuple comparison raises `TypeError` (excellon.py line 195), and (2) any
`Line`/`Arc` object's `to_xnc` calls `ExcellonContext.route_mode`, whose
first statement `self.unit(x, unit)` raises `AttributeError` because the
context has no `unit` attribute (excellon.py line 53).  In neither case does
the output consist of the claimed sequence — no output is produced at all. -/
theorem C6_counterexample :
    mixedUnknownFile._generate_statements xncSettings =
      .error "TypeError: '<' not supported between instances of 'NoneType' and a value" ∧
    slotFile._generate_statements xncSettings =
      .error "AttributeError: 'ExcellonContext' object has no attribute 'unit'" := by
  constructor
  · rfl
  · rfl

/-- **C6, amended.** For every `ExcellonFile` whose objects are all drill
hits (`Flash`) and whose tools' sort keys are pairwise Python-comparable
(no unknown value ordered against a known one), and settings with a known
unit, the XNC emitter's output consists, in order, of: a generator comment,
the comments block, `M48`, the unit statement (`METRIC` or `INCH`), a tool
table sorted by the key `(plated, diameter, depth_offset)` and re-indexed
consecutively from 1, with a `;TYPE=PLATED` / `;TYPE=NON_PLATED` marker
preceding each tool entry exactly when the file's tools have mixed plating
values (`toolTableEntry`), then `%`, then the object statements, then
`M30`; and the >-99-tools warning is emitted exactly when more than 99
tools are defined. -/
theorem C6_xnc_emitter_structure (f : ExcellonFile) (settings : FSettings)
    (hflash : ∀ o ∈ f.objects, ∃ fl, o = ExcObj.flash fl)
    (hcomp : ∀ p ∈ toolMap f.objects, ∀ q ∈ toolMap f.objects, KeyComparable p.2 q.2)
    (hunit : settings.unit.isSome) :
    ∃ (sorted : List (ℕ × ExcellonTool)) (objLines warns : List String),
      isortE (fun p q => toolKeyLe p.2 q.2) (toolMap f.objects) = .ok sorted ∧
      sorted.Perm (toolMap f.objects) ∧
      sorted.Chain' (fun p q => toolKeyLe p.2 q.2 = .ok true) ∧
      f._generate_statements settings = .ok
        (["; XNC file generated by gerbonara"]
          ++ (if f.comments ≠ [] then ["; Comments found in original file:"] else [])
          ++ f.comments.map (";" ++ ·)
          ++ ["M48", if settings.unit = some LUnit.mm then "METRIC" else "INCH"]
          ++ ((sorted.enumFrom 1).map fun p =>
                toolTableEntry settings (mixedPlating f.objects) p.1 p.2.2).join
          ++ ["%"] ++ objLines ++ ["M30"], warns) ∧
      (sorted.enumFrom 1).map Prod.fst = List.range' 1 (toolMap f.objects).length ∧
      (tooManyToolsWarning ∈ warns ↔ 100 ≤ (toolMap f.objects).length) ∧
      (mixedPlatingWarning ∈ warns ↔ mixedPlating f.objects = true) := by
  have htotal : ∀ p ∈ toolMap f.objects, ∀ q ∈ toolMap f.objects,
      (fun p q => toolKeyLe p.2 q.2) p q = .ok true ∨
        ((fun p q => toolKeyLe p.2 q.2) p q = .ok false ∧
         (fun p q => toolKeyLe p.2 q.2) q p = .ok true) :=
    fun p hp q hq => toolKeyLe_total p.2 q.2 (hcomp p hp q hq)
  obtain ⟨sorted, hsort, hperm, hchain⟩ :=
    isortE_total (fun p q => toolKeyLe p.2 q.2) (toolMap f.objects) htotal
  have hlen : sorted.length = (toolMap f.objects).length := hperm.length_eq
  set ctx0 : ExcellonContext :=
    { settings := settings, tools := (sorted.enumFrom 1).map fun p => (p.2.1, p.1) }
    with hctx0
  have htools : ∀ o ∈ f.objects, (ctx0.tools.lookup o.tool.pid).isSome := by
    intro o ho
    obtain ⟨t, hmem⟩ := toolMap_keys f.objects o ho
    have hmem' : (o.tool.pid, t) ∈ sorted := hperm.mem_iff.mpr hmem
    have : (o.tool.pid, t) ∈ (sorted.enumFrom 1).map Prod.snd := by
      rw [List.enumFrom_map_snd]
      exact hmem'
    obtain ⟨x, hx, hx2⟩ := List.mem_map.mp this
    apply lookup_isSome_of_key_mem
    refine ⟨x.1, ?_⟩
    have hmm : (fun p => (p.2.1, p.1)) x ∈ (sorted.enumFrom 1).map fun p => (p.2.1, p.1) :=
      List.mem_map_of_mem _ hx
    have hfst : x.2.1 = o.tool.pid := by rw [hx2]
    dsimp only at hmm
    rw [hfst] at hmm
    exact hmm
  obtain ⟨objLines, ctxF, hobj⟩ := objStatements_ok f.objects [] ctx0 hflash hunit htools
  refine ⟨sorted, objLines,
    (if mixedPlating f.objects then [mixedPlatingWarning] else [])
      ++ (if sorted.enumFrom 1 ≠ [] ∧
            100 ≤ ((sorted.enumFrom 1).map Prod.fst).foldl max 0
          then [tooManyToolsWarning] else []),
    hsort, hperm, hchain, ?_, ?_, ?_, ?_⟩
  · unfold ExcellonFile._generate_statements
    rw [hsort]
    dsimp only
    rw [← hctx0, hobj]
  · rw [enumFrom_map_fst_range', hlen]
  · have hmax : ((sorted.enumFrom 1).map Prod.fst).foldl max 0 = sorted.length := by
      rw [enumFrom_map_fst_range', foldl_max_range']
    have hne : sorted.enumFrom 1 ≠ [] ↔ sorted ≠ [] := by
      constructor
      · intro h hs
        exact h (by rw [hs]; rfl)
      · intro h he
        have := congrArg List.length he
        rw [List.enumFrom_length] at this
        exact h (List.length_eq_zero.mp this)
    by_cases hbig : 100 ≤ (toolMap f.objects).length
    · have hcond : sorted.enumFrom 1 ≠ [] ∧
          100 ≤ ((sorted.enumFrom 1).map Prod.fst).foldl max 0 := by
        constructor
        · rw [hne]
          intro hs
          rw [hs] at hlen
          simp at hlen
          omega
        · rw [hmax, hlen]
          exact hbig
      rw [if_pos hcond]
      simp [hbig]
    · have hcond : ¬(sorted.enumFrom 1 ≠ [] ∧
          100 ≤ ((sorted.enumFrom 1).map Prod.fst).foldl max 0) := by
        rw [hmax, hlen]
        intro ⟨_, h2⟩
        exact hbig h2
      rw [if_neg hcond]
      simp only [List.append_nil]
      constructor
      · intro hmem
        by_cases hmix : mixedPlating f.objects
        · rw [if_pos hmix] at hmem
          have : tooManyToolsWarning = mixedPlatingWarning := by
            simpa using hmem
          exact absurd this (by decide)
        · rw [if_neg hmix] at hmem
          exact absurd hmem (by simp)
      · intro h
        exact absurd h hbig
  · constructor
    · intro hmem
      rcases List.mem_append.mp hmem with h1 | h2
      · by_cases hmix : mixedPlating f.objects
        · exact hmix
        · rw [if_neg hmix] at h1
          exact absurd h1 (by simp)
      · split at h2
        · have : mixedPlatingWarning = tooManyToolsWarning := by
            simpa using h2
          exact absurd this (by decide)
        · exact absurd h2 (by simp)
    · intro hmix
      apply List.mem_append_left
      rw [if_pos hmix]
      simp

/-- A 0.3 mm non-plated tool (scenario S5). -/
def s5ToolNP : ExcellonTool :=
  { pid := 10, diameter := some (3/10), plated := some false, unit := .mm }

/-- A 0.3 mm plated tool (scenario S5). -/
def s5ToolP : ExcellonTool :=
  { pid := 11, diameter := some (3/10), plated := some true, unit := .mm }

/-- The S5 file: one hit with each tool, plated first. -/
def s5File : ExcellonFile :=
  { objects :=
      [.flash { x := 1, y := 2, aperture := s5ToolP, unit := some .mm },
       .flash { x := 3, y := 4, aperture := s5ToolNP, unit := some .mm }] }

/-- Witness for C6 at the S5 file (two 0.3 mm tools of opposite plating,
one hit each): all hypotheses hold and the emitter produces the claimed
structure. -/
theorem C6_witness :
    (∀ o ∈ s5File.objects, ∃ fl, o = ExcObj.flash fl) ∧
    (∀ p ∈ toolMap s5File.objects, ∀ q ∈ toolMap s5File.objects, KeyComparable p.2 q.2) ∧
    (xncSettings.unit.isSome = true) ∧
    (∃ (sorted : List (ℕ × ExcellonTool)) (objLines warns : List String),
      isortE (fun p q => toolKeyLe p.2 q.2) (toolMap s5File.objects) = .ok sorted ∧
      sorted.Perm (toolMap s5File.objects) ∧
      sorted.Chain' (fun p q => toolKeyLe p.2 q.2 = .ok true) ∧
      s5File._generate_statements xncSettings = .ok
        (["; XNC file generated by gerbonara"]
          ++ (if s5File.comments ≠ [] then ["; Comments found in original file:"] else [])
          ++ s5File.comments.map (";" ++ ·)
          ++ ["M48", if xncSettings.unit = some LUnit.mm then "METRIC" else "INCH"]
          ++ ((sorted.enumFrom 1).map fun p =>
                toolTableEntry xncSettings (mixedPlating s5File.objects) p.1 p.2.2).join
          ++ ["%"] ++ objLines ++ ["M30"], warns) ∧
      (sorted.enumFrom 1).map Prod.fst = List.range' 1 (toolMap s5File.objects).length ∧
      (tooManyToolsWarning ∈ warns ↔ 100 ≤ (toolMap s5File.objects).length) ∧
      (mixedPlatingWarning ∈ warns ↔ mixedPlating s5File.objects = true)) := by
  have hflash : ∀ o ∈ s5File.objects, ∃ fl, o = ExcObj.flash fl := by
    intro o ho
    rcases List.mem_cons.mp ho with rfl | ho
    · exact ⟨_, rfl⟩
    · rcases List.mem_cons.mp ho with rfl | ho
      · exact ⟨_, rfl⟩
      · exact absurd ho (by simp)
  have hcomp : ∀ p ∈ toolMap s5File.objects, ∀ q ∈ toolMap s5File.objects,
      KeyComparable p.2 q.2 := by
    have hmap : toolMap s5File.objects = [(11, s5ToolP), (10, s5ToolNP)] := rfl
    intro p hp q hq
    rw [hmap] at hp hq
    have hp' : p = (11, s5ToolP) ∨ p = (10, s5ToolNP) := by simpa using hp
    have hq' : q = (11, s5ToolP) ∨ q = (10, s5ToolNP) := by simpa using hq
    rcases hp' with rfl | rfl <;> rcases hq' with rfl | rfl
    · refine ⟨.eq, ?_⟩
      norm_num [toolKeyCmp, lexCmp, pyCmpOpt, cmpQ, cmpBool, s5ToolP]
    · exact ⟨.gt, rfl⟩
    · exact ⟨.lt, rfl⟩
    · refine ⟨.eq, ?_⟩
      norm_num [toolKeyCmp, lexCmp, pyCmpOpt, cmpQ, cmpBool, s5ToolNP]
  exact ⟨hflash, hcomp, rfl,
    C6_xnc_emitter_structure s5File xncSettings hflash hcomp rfl⟩

/-! ## Gerber circular interpolation (`rs274x.py` `GraphicsState._create_arc`) -/

/-- Modelled from the spec: `InterpMode` (imported from `utils`, whose copy
under `src/` does not define it): "interpolation mode ∈ {linear,
cw-circular, ccw-circular}" (§4.4). -/
inductive InterpMode where
  | linear
  | circular_cw
  | circular_ccw
deriving DecidableEq, Repr

/-- Python `math.isclose(a, b)` with its default tolerances
(`rel_tol = 1e-9`, `abs_tol = 0.0`):
`|a-b| ≤ max(rel_tol * max(|a|, |b|), abs_tol)`. -/
def isclose (a b : ℚ) : Bool :=
  decide (|a - b| ≤ max ((1 / 1000000000) * max |a| |b|) 0)

/-- Modelled from the spec: `graphic_primitives.point_line_distance`
(`graphic_primitives.py` is not under `src/`).  `_create_arc` uses only the
*sign* of this quantity ("whose signed area sign matches the declared
rotation direction", §4.4); the embedding uses the signed area (cross
product) of the line direction and the point offset, which has that sign. -/
def point_line_distance (l1 l2 p : ℚ × ℚ) : ℚ :=
  (l2.1 - l1.1) * (p.2 - l1.2) - (l2.2 - l1.2) * (p.1 - l1.1)

/-- The result of a D01 circular interpolation: a created `Arc`, no object
at all (coincident endpoints in the quadrant-search mode), or the
`assert False` at the end of `_create_arc` (rs274x.py line 449). -/
inductive ArcResult (α : Type) where
  | noObject
  | obj (a : Arc α)
  | assertFail
deriving DecidableEq, Repr

/-- The candidate arc built by the `arc = lambda cx, cy: go.Arc(...)` of
rs274x.py line 439: endpoints fixed, center offset the candidate. -/
def quadArc {α : Type} (old_point new_point : ℚ × ℚ) (clockwise : Bool)
    (aperture : α) (polarity_dark : Bool) (unit : Option LUnit)
    (cx cy : ℚ) : Arc α :=
  { x1 := old_point.1, y1 := old_point.2, x2 := new_point.1, y2 := new_point.2,
    cx := cx, cy := cy, clockwise := clockwise, aperture := aperture,
    polarity_dark := polarity_dark, unit := unit }

/-- The four quadrant-reflection candidates
`[arc(cx, cy), arc(-cx, cy), arc(cx, -cy), arc(-cx, -cy)]`
(rs274x.py line 442). -/
def quadrantCandidates {α : Type} (old_point new_point control_point : ℚ × ℚ)
    (clockwise : Bool) (aperture : α) (polarity_dark : Bool) (unit : Option LUnit) :
    List (Arc α) :=
  [quadArc old_point new_point clockwise aperture polarity_dark unit
      control_point.1 control_point.2,
   quadArc old_point new_point clockwise aperture polarity_dark unit
      (-control_point.1) control_point.2,
   quadArc old_point new_point clockwise aperture polarity_dark unit
      control_point.1 (-control_point.2),
   quadArc old_point new_point clockwise aperture polarity_dark unit
      (-control_point.1) (-control_point.2)]

/-- The selection test of the loop at rs274x.py lines 445-448:
`d = point_line_distance(old, new, old + (a.cx, a.cy)); (d > 0) == clockwise`. -/
def signMatches {α : Type} (old_point new_point : ℚ × ℚ) (clockwise : Bool)
    (a : Arc α) : Bool :=
  decide (0 < point_line_distance old_point new_point
    (old_point.1 + a.cx, old_point.2 + a.cy)) == clockwise

/-- Squared distance from a candidate arc's center to its start point. -/
def arc_d1 {α : Type} (a : Arc α) : ℚ := sq_distance a.center a.p1

/-- Squared distance from a candidate arc's center to its end point. -/
def arc_d2 {α : Type} (a : Arc α) : ℚ := sq_distance a.center a.p2

/-- Modelled from the spec: the "numeric error" metric that
`sorted(arcs, key=lambda a: a.numeric_error())` sorts by — "distance from
center to end minus distance from center to start" (§4.4), as an absolute
value, over the reals. -/
noncomputable def numeric_error {α : Type} (a : Arc α) : ℝ :=
  |Real.sqrt ((arc_d2 a : ℚ) : ℝ) - Real.sqrt ((arc_d1 a : ℚ) : ℝ)|

/-- Rational decision procedure for `u + 2√q ≤ 2√p` (with `p, q ≥ 0`): the
inequality is squared away in stages, with explicit sign analysis.  This
is the computable comparator behind the `numeric_error` sort key; its
correspondence with the real-number inequality is
`sqrtCmpAux_iff` below. -/
def sqrtCmpAux (u p q : ℚ) : Bool :=
  if u ≤ 0 ∧ 4 * q ≤ u ^ 2 then true
  else
    let M := 4 * p - u ^ 2 - 4 * q
    if 0 ≤ u then decide (0 ≤ M ∧ 16 * u ^ 2 * q ≤ M ^ 2)
    else decide (0 ≤ M ∨ M ^ 2 ≤ 16 * u ^ 2 * q)

/-- The comparator `numeric_error a ≤ numeric_error b`, decided over `ℚ`:
with `d1 d2` the squared start/end distances,
`|√d2a − √d1a| ≤ |√d2b − √d1b|` iff
`(d1a+d2a) − (d1b+d2b) + 2√(d1b·d2b) ≤ 2√(d1a·d2a)`. -/
def errLe {α : Type} (a b : Arc α) : Bool :=
  sqrtCmpAux ((arc_d1 a + arc_d2 a) - (arc_d1 b + arc_d2 b))
    (arc_d1 a * arc_d2 a) (arc_d1 b * arc_d2 b)

/-- Stable insertion into a sorted list (Boolean comparator). -/
def insertSortedB {α : Type} (le : α → α → Bool) (x : α) : List α → List α
  | [] => [x]
  | y :: ys => if le x y then x :: y :: ys else y :: insertSortedB le x ys

/-- Stable insertion sort: the embedding of Python's stable `sorted`. -/
def isortB {α : Type} (le : α → α → Bool) : List α → List α
  | [] => []
  | x :: xs => insertSortedB le x (isortB le xs)

/-- `rs274x.py` `GraphicsState._create_arc` (lines 421-449).  The embedding
fixes the default image transform (no deprecated IR/MI/SF/OF statements),
under which `map_coord` is the identity, so `old_point`, `new_point` and the
relative `control_point` arrive unchanged; `clockwise` is
`interpolation_mode == InterpMode.CIRCULAR_CW` as in the caller.  In the
`multi_quadrant=False` branch the given offset is the arc center as is; in
the `multi_quadrant=True` branch coincident endpoints (by `math.isclose`)
produce no object, and otherwise the four quadrant reflections are sorted
by the numeric-error key and the first whose signed-area sign matches the
rotation direction is returned (`assert False` if none matches). -/
def GraphicsState._create_arc {α : Type} (old_point new_point control_point : ℚ × ℚ)
    (interpolation_mode : InterpMode) (aperture : α) (polarity_dark : Bool)
    (unit : Option LUnit) (multi_quadrant : Bool) : ArcResult α :=
  let clockwise := interpolation_mode == InterpMode.circular_cw
  if !multi_quadrant then
    .obj (quadArc old_point new_point clockwise aperture polarity_dark unit
      control_point.1 control_point.2)
  else if isclose old_point.1 new_point.1 && isclose old_point.2 new_point.2 then
    .noObject
  else
    let arcs := isortB errLe
      (quadrantCandidates old_point new_point control_point clockwise aperture
        polarity_dark unit)
    match arcs.find? (signMatches old_point new_point clockwise) with
    | some a => .obj a
    | none => .assertFail

/-! Correctness of the rational comparator against the real metric. -/

theorem sqrtCmpAux_iff (u p q : ℚ) (hp : 0 ≤ p) (hq : 0 ≤ q) :
    sqrtCmpAux u p q = true ↔
      (u : ℝ) + 2 * Real.sqrt ((q : ℚ) : ℝ) ≤ 2 * Real.sqrt ((p : ℚ) : ℝ) := by
  have hx : (0:ℝ) ≤ Real.sqrt ((p : ℚ) : ℝ) := Real.sqrt_nonneg _
  have hy : (0:ℝ) ≤ Real.sqrt ((q : ℚ) : ℝ) := Real.sqrt_nonneg _
  have hx2 : Real.sqrt ((p : ℚ) : ℝ) ^ 2 = ((p : ℚ) : ℝ) :=
    Real.sq_sqrt (by exact_mod_cast hp)
  have hy2 : Real.sqrt ((q : ℚ) : ℝ) ^ 2 = ((q : ℚ) : ℝ) :=
    Real.sq_sqrt (by exact_mod_cast hq)
  set x := Real.sqrt ((p : ℚ) : ℝ)
  set y := Real.sqrt ((q : ℚ) : ℝ)
  unfold sqrtCmpAux
  by_cases h1 : u ≤ 0 ∧ 4 * q ≤ u ^ 2
  · rw [if_pos h1]
    simp only [true_iff]
    obtain ⟨hu, hq4⟩ := h1
    have hu' : (u:ℝ) ≤ 0 := by exact_mod_cast hu
    have hq4' : 4 * ((q:ℚ):ℝ) ≤ ((u:ℚ):ℝ) ^ 2 := by exact_mod_cast hq4
    have h2y : 2 * y ≤ -(u:ℝ) := by
      apply le_of_pow_le_pow_left two_ne_zero (by linarith)
      calc (2*y)^2 = 4 * ((q:ℚ):ℝ) := by rw [mul_pow, hy2]; ring
        _ ≤ ((u:ℚ):ℝ)^2 := hq4'
        _ = (-(u:ℝ))^2 := by ring
    linarith
  · rw [if_neg h1]
    have hpos : 0 < (u:ℝ) + 2*y := by
      push_neg at h1
      by_cases hu : u ≤ 0
      · have h4 : ((u:ℚ):ℝ)^2 < 4 * ((q:ℚ):ℝ) := by exact_mod_cast h1 hu
        by_contra hle
        push_neg at hle
        have hcast : (u:ℝ) ≤ 0 := by exact_mod_cast hu
        have hsq : (2*y)^2 ≤ ((u:ℚ):ℝ)^2 := by nlinarith
        rw [mul_pow, hy2] at hsq
        linarith
      · push_neg at hu
        have : (0:ℝ) < (u:ℝ) := by exact_mod_cast hu
        linarith
    have key : ((u:ℝ) + 2*y ≤ 2*x) ↔
        (4*(u:ℝ)*y ≤ 4*((p:ℚ):ℝ) - ((u:ℚ):ℝ)^2 - 4*((q:ℚ):ℝ)) := by
      constructor
      · intro h
        have hsq : ((u:ℝ)+2*y)^2 ≤ (2*x)^2 :=
          pow_le_pow_left (le_of_lt hpos) h 2
        rw [mul_pow, hx2] at hsq
        nlinarith [hy2]
      · intro h
        have hsq : ((u:ℝ)+2*y)^2 ≤ (2*x)^2 := by
          rw [mul_pow, hx2]
          nlinarith [hy2]
        exact le_of_pow_le_pow_left two_ne_zero (by linarith) hsq
    rw [key]
    by_cases hu : (0:ℚ) ≤ u
    · rw [if_pos hu]
      rw [decide_eq_true_eq]
      have hur : (0:ℝ) ≤ (u:ℝ) := by exact_mod_cast hu
      have h4uy : 0 ≤ 4*(u:ℝ)*y := by positivity
      constructor
      · intro ⟨hM, hsq⟩
        have hMr : (0:ℝ) ≤ 4*((p:ℚ):ℝ) - ((u:ℚ):ℝ)^2 - 4*((q:ℚ):ℝ) := by exact_mod_cast hM
        have hsqr : 16*((u:ℚ):ℝ)^2*((q:ℚ):ℝ)
            ≤ (4*((p:ℚ):ℝ) - ((u:ℚ):ℝ)^2 - 4*((q:ℚ):ℝ))^2 := by exact_mod_cast hsq
        apply le_of_pow_le_pow_left two_ne_zero hMr
        calc (4*(u:ℝ)*y)^2 = 16*((u:ℚ):ℝ)^2*((q:ℚ):ℝ) := by
              rw [show (4*(u:ℝ)*y)^2 = 16*(u:ℝ)^2*(y^2) by ring, hy2]
          _ ≤ _ := hsqr
      · intro h
        have hMr : (0:ℝ) ≤ 4*((p:ℚ):ℝ) - ((u:ℚ):ℝ)^2 - 4*((q:ℚ):ℝ) := le_trans h4uy h
        constructor
        · exact_mod_cast hMr
        · have hsq : (4*(u:ℝ)*y)^2
              ≤ (4*((p:ℚ):ℝ) - ((u:ℚ):ℝ)^2 - 4*((q:ℚ):ℝ))^2 :=
            pow_le_pow_left h4uy h 2
          rw [show (4*(u:ℝ)*y)^2 = 16*(u:ℝ)^2*(y^2) by ring, hy2] at hsq
          exact_mod_cast hsq
    · rw [if_neg hu]
      rw [decide_eq_true_eq]
      push_neg at hu
      have hur : (u:ℝ) < 0 := by exact_mod_cast hu
      have h4uy : 4*(u:ℝ)*y ≤ 0 := by
        apply mul_nonpos_of_nonpos_of_nonneg _ hy
        linarith
      constructor
      · rintro (hM | hsq)
        · exact le_trans h4uy (by exact_mod_cast hM)
        · by_cases hM : (0:ℚ) ≤ 4*p - u^2 - 4*q
          · exact le_trans h4uy (by exact_mod_cast hM)
          · push_neg at hM
            have hMr : 4*((p:ℚ):ℝ) - ((u:ℚ):ℝ)^2 - 4*((q:ℚ):ℝ) < 0 := by exact_mod_cast hM
            have hsqr : (4*((p:ℚ):ℝ) - ((u:ℚ):ℝ)^2 - 4*((q:ℚ):ℝ))^2
                ≤ 16*((u:ℚ):ℝ)^2*((q:ℚ):ℝ) := by exact_mod_cast hsq
            have hneg : -(4*((p:ℚ):ℝ) - ((u:ℚ):ℝ)^2 - 4*((q:ℚ):ℝ)) ≤ -(4*(u:ℝ)*y) := by
              apply le_of_pow_le_pow_left two_ne_zero (by linarith)
              calc (-(4*((p:ℚ):ℝ) - ((u:ℚ):ℝ)^2 - 4*((q:ℚ):ℝ)))^2
                  = (4*((p:ℚ):ℝ) - ((u:ℚ):ℝ)^2 - 4*((q:ℚ):ℝ))^2 := by ring
                _ ≤ 16*((u:ℚ):ℝ)^2*((q:ℚ):ℝ) := hsqr
                _ = (-(4*(u:ℝ)*y))^2 := by
                    rw [show (-(4*(u:ℝ)*y))^2 = 16*(u:ℝ)^2*(y^2) by ring, hy2]
            linarith
      · intro h
        by_cases hM : (0:ℚ) ≤ 4*p - u^2 - 4*q
        · exact Or.inl hM
        · right
          push_neg at hM
          have hMr : 4*((p:ℚ):ℝ) - ((u:ℚ):ℝ)^2 - 4*((q:ℚ):ℝ) < 0 := by exact_mod_cast hM
          have hneg : -(4*((p:ℚ):ℝ) - ((u:ℚ):ℝ)^2 - 4*((q:ℚ):ℝ)) ≤ -(4*(u:ℝ)*y) := by
            linarith
          have hsq : (-(4*((p:ℚ):ℝ) - ((u:ℚ):ℝ)^2 - 4*((q:ℚ):ℝ)))^2
              ≤ (-(4*(u:ℝ)*y))^2 :=
            pow_le_pow_left (by linarith) hneg 2
          have : (4*((p:ℚ):ℝ) - ((u:ℚ):ℝ)^2 - 4*((q:ℚ):ℝ))^2
              ≤ 16*((u:ℚ):ℝ)^2*((q:ℚ):ℝ) := by
            calc (4*((p:ℚ):ℝ) - ((u:ℚ):ℝ)^2 - 4*((q:ℚ):ℝ))^2
                = (-(4*((p:ℚ):ℝ) - ((u:ℚ):ℝ)^2 - 4*((q:ℚ):ℝ)))^2 := by ring
              _ ≤ (-(4*(u:ℝ)*y))^2 := hsq
              _ = 16*((u:ℚ):ℝ)^2*((q:ℚ):ℝ) := by
                  rw [show (-(4*(u:ℝ)*y))^2 = 16*(u:ℝ)^2*(y^2) by ring, hy2]
          exact_mod_cast this

theorem sq_distance_nonneg (p q : ℚ × ℚ) : 0 ≤ sq_distance p q := by
  unfold sq_distance
  nlinarith [sq_nonneg (p.1 - q.1), sq_nonneg (p.2 - q.2)]

theorem arc_d1_nonneg {α : Type} (a : Arc α) : 0 ≤ arc_d1 a := sq_distance_nonneg _ _

theorem arc_d2_nonneg {α : Type} (a : Arc α) : 0 ≤ arc_d2 a := sq_distance_nonneg _ _

/-- The rational comparator `errLe` decides the real-valued
`numeric_error` ordering. -/
theorem errLe_iff {α : Type} (a b : Arc α) :
    errLe a b = true ↔ numeric_error a ≤ numeric_error b := by
  have h1a : (0:ℚ) ≤ arc_d1 a := arc_d1_nonneg a
  have h2a : (0:ℚ) ≤ arc_d2 a := arc_d2_nonneg a
  have h1b : (0:ℚ) ≤ arc_d1 b := arc_d1_nonneg b
  have h2b : (0:ℚ) ≤ arc_d2 b := arc_d2_nonneg b
  have e1a : (0:ℝ) ≤ ((arc_d1 a : ℚ):ℝ) := by exact_mod_cast h1a
  have e2a : (0:ℝ) ≤ ((arc_d2 a : ℚ):ℝ) := by exact_mod_cast h2a
  have e1b : (0:ℝ) ≤ ((arc_d1 b : ℚ):ℝ) := by exact_mod_cast h1b
  have e2b : (0:ℝ) ≤ ((arc_d2 b : ℚ):ℝ) := by exact_mod_cast h2b
  rw [errLe, sqrtCmpAux_iff _ _ _ (mul_nonneg h1a h2a) (mul_nonneg h1b h2b)]
  rw [show ((arc_d1 a * arc_d2 a : ℚ):ℝ) = ((arc_d1 a:ℚ):ℝ) * ((arc_d2 a:ℚ):ℝ) by
        push_cast; ring,
      show ((arc_d1 b * arc_d2 b : ℚ):ℝ) = ((arc_d1 b:ℚ):ℝ) * ((arc_d2 b:ℚ):ℝ) by
        push_cast; ring,
      Real.sqrt_mul e1a, Real.sqrt_mul e1b,
      show (((arc_d1 a + arc_d2 a) - (arc_d1 b + arc_d2 b) : ℚ):ℝ)
          = ((arc_d1 a:ℚ):ℝ) + ((arc_d2 a:ℚ):ℝ)
            - (((arc_d1 b:ℚ):ℝ) + ((arc_d2 b:ℚ):ℝ)) by push_cast; ring]
  rw [numeric_error, numeric_error]
  have habs : ∀ s t : ℝ, (|s| ≤ |t| ↔ s^2 ≤ t^2) := by
    intro s t
    rw [← Real.sqrt_sq_eq_abs s, ← Real.sqrt_sq_eq_abs t]
    exact Real.sqrt_le_sqrt_iff (sq_nonneg t)
  rw [habs]
  have q1a := Real.sq_sqrt e1a
  have q2a := Real.sq_sqrt e2a
  have q1b := Real.sq_sqrt e1b
  have q2b := Real.sq_sqrt e2b
  constructor
  · intro h
    nlinarith [h, q1a, q2a, q1b, q2b]
  · intro h
    nlinarith [h, q1a, q2a, q1b, q2b]

theorem errLe_refl {α : Type} (a : Arc α) : errLe a a = true :=
  (errLe_iff a a).mpr le_rfl

theorem errLe_total {α : Type} (a b : Arc α) : errLe a b = true ∨ errLe b a = true := by
  rcases le_total (numeric_error a) (numeric_error b) with h | h
  · exact Or.inl ((errLe_iff a b).mpr h)
  · exact Or.inr ((errLe_iff b a).mpr h)

theorem errLe_trans {α : Type} (a b c : Arc α)
    (hab : errLe a b = true) (hbc : errLe b c = true) : errLe a c = true :=
  (errLe_iff a c).mpr (le_trans ((errLe_iff a b).mp hab) ((errLe_iff b c).mp hbc))

theorem insertSortedB_perm {α : Type} (le : α → α → Bool) (x : α) (l : List α) :
    (insertSortedB le x l).Perm (x :: l) := by
  induction l with
  | nil => exact List.Perm.refl _
  | cons y ys ih =>
      rw [insertSortedB]
      by_cases hxy : le x y = true
      · rw [if_pos hxy]
      · rw [if_neg hxy]
        exact (ih.cons y).trans (List.Perm.swap x y ys)

theorem isortB_perm {α : Type} (le : α → α → Bool) (l : List α) :
    (isortB le l).Perm l := by
  induction l with
  | nil => exact List.Perm.refl _
  | cons x xs ih =>
      rw [isortB]
      exact (insertSortedB_perm le x (isortB le xs)).trans (ih.cons x)

theorem insertSortedB_pairwise {α : Type} (le : α → α → Bool)
    (htot : ∀ a b, le a b = true ∨ le b a = true)
    (htrans : ∀ a b c, le a b = true → le b c = true → le a c = true)
    (x : α) (l : List α) (hl : l.Pairwise (fun a b => le a b = true)) :
    (insertSortedB le x l).Pairwise (fun a b => le a b = true) := by
  induction l with
  | nil => exact List.pairwise_singleton _ x
  | cons y ys ih =>
      rw [insertSortedB]
      obtain ⟨hhead, htail⟩ := List.pairwise_cons.mp hl
      by_cases hxy : le x y = true
      · rw [if_pos hxy]
        refine List.pairwise_cons.mpr ⟨?_, hl⟩
        intro z hz
        rcases List.mem_cons.mp hz with rfl | hzys
        · exact hxy
        · exact htrans x y z hxy (hhead z hzys)
      · rw [if_neg hxy]
        have hyx : le y x = true := (htot x y).resolve_left hxy
        refine List.pairwise_cons.mpr ⟨?_, ih htail⟩
        intro z hz
        have hz' : z ∈ x :: ys := (insertSortedB_perm le x ys).mem_iff.mp hz
        rcases List.mem_cons.mp hz' with rfl | hzys
        · exact hyx
        · exact hhead z hzys

theorem isortB_pairwise {α : Type} (le : α → α → Bool)
    (htot : ∀ a b, le a b = true ∨ le b a = true)
    (htrans : ∀ a b c, le a b = true → le b c = true → le a c = true)
    (l : List α) : (isortB le l).Pairwise (fun a b => le a b = true) := by
  induction l with
  | nil => exact List.Pairwise.nil
  | cons x xs ih =>
      rw [isortB]
      exact insertSortedB_pairwise le htot htrans x (isortB le xs) ih

/-- The first predicate-satisfying element of a pairwise-sorted list is
minimal among the satisfying elements. -/
theorem find?_pairwise_min {α : Type} (le : α → α → Bool) (pred : α → Bool)
    (l : List α) (hl : l.Pairwise (fun a b => le a b = true))
    (hrefl : ∀ x, le x x = true) (a : α) (hfind : l.find? pred = some a) :
    ∀ b ∈ l, pred b = true → le a b = true := by
  induction l with
  | nil => exact absurd hfind (by simp)
  | cons x xs ih =>
      obtain ⟨hhead, htail⟩ := List.pairwise_cons.mp hl
      by_cases hpx : pred x = true
      · rw [List.find?_cons_of_pos _ hpx] at hfind
        injection hfind with hfind
        subst hfind
        intro b hb hpb
        rcases List.mem_cons.mp hb with rfl | hbxs
        · exact hrefl _
        · exact hhead b hbxs
      · rw [List.find?_cons_of_neg _ (by simpa using hpx)] at hfind
        intro b hb hpb
        rcases List.mem_cons.mp hb with rfl | hbxs
        · exact absurd hpb hpx
        · exact ih htail hfind b hbxs hpb

/-- Reduction of `_create_arc` in the `multi_quadrant=True` branch (the code's
"multi-quadrant mode", set by a `G74` statement): coincident endpoints give no
object, otherwise the sorted quadrant search runs. -/
theorem create_arc_multi {α : Type} (old_point new_point control_point : ℚ × ℚ)
    (interpolation_mode : InterpMode) (aperture : α) (polarity_dark : Bool)
    (unit : Option LUnit) :
    GraphicsState._create_arc old_point new_point control_point interpolation_mode
        aperture polarity_dark unit true =
      if (isclose old_point.1 new_point.1 && isclose old_point.2 new_point.2) = true
      then .noObject
      else
        match (isortB errLe (quadrantCandidates old_point new_point control_point
              (interpolation_mode == InterpMode.circular_cw) aperture polarity_dark
              unit)).find?
            (signMatches old_point new_point (interpolation_mode == InterpMode.circular_cw)) with
        | some a => .obj a
        | none => .assertFail := rfl

/-- The arc `_create_arc` produces in single-quadrant mode at
`old=(0,0)`, `new=(10,0)`, offset `(-5,3)`, clockwise: the offset is used as
the center as given. -/
def c3Arc : Arc Unit := quadArc (0, 0) (10, 0) true () true none (-5) 3

/-- The quadrant reflection `(5,3)` of that offset: also sign-matching, with
strictly smaller numeric error (its center is equidistant from both
endpoints). -/
def c3Alt : Arc Unit := quadArc (0, 0) (10, 0) true () true none 5 3

/-- C3 counterexample.  The claim places the quadrant-reflection /
error-minimisation search in single-quadrant mode; in the code
(rs274x.py lines 425-428) the `multi_quadrant=False` (single-quadrant) branch
uses the given offset directly as the center.  At `old=(0,0)`, `new=(10,0)`,
offset `(-5,3)`, clockwise, single-quadrant mode produces the arc with center
offset `(-5,3)` even though the reflection `(5,3)` is a sign-matching
candidate with strictly smaller numeric error, refuting the claimed
minimisation for single-quadrant mode. -/
theorem C3_counterexample :
    GraphicsState._create_arc (0, 0) (10, 0) (-5, 3) InterpMode.circular_cw
        () true none false = ArcResult.obj c3Arc
    ∧ c3Alt ∈ quadrantCandidates (0, 0) (10, 0) (-5, 3) true () true none
    ∧ signMatches (0, 0) (10, 0) true c3Alt = true
    ∧ signMatches (0, 0) (10, 0) true c3Arc = true
    ∧ numeric_error c3Alt < numeric_error c3Arc := by
  refine ⟨rfl, by norm_num [quadrantCandidates, c3Alt, quadArc],
    by norm_num [signMatches, point_line_distance, c3Alt, quadArc],
    by norm_num [signMatches, point_line_distance, c3Arc, quadArc], ?_⟩
  have e1 : arc_d1 c3Alt = 34 := by
    norm_num [arc_d1, c3Alt, quadArc, sq_distance, Arc.center, Arc.p1]
  have e2 : arc_d2 c3Alt = 34 := by
    norm_num [arc_d2, c3Alt, quadArc, sq_distance, Arc.center, Arc.p2]
  have e3 : arc_d1 c3Arc = 34 := by
    norm_num [arc_d1, c3Arc, quadArc, sq_distance, Arc.center, Arc.p1]
  have e4 : arc_d2 c3Arc = 234 := by
    norm_num [arc_d2, c3Arc, quadArc, sq_distance, Arc.center, Arc.p2]
  unfold numeric_error
  rw [e1, e2, e3, e4]
  have c34 : ((34 : ℚ) : ℝ) = 34 := by norm_num
  have c234 : ((234 : ℚ) : ℝ) = 234 := by norm_num
  rw [c34, c234]
  have hlt : Real.sqrt 34 < Real.sqrt 234 := Real.sqrt_lt_sqrt (by norm_num) (by norm_num)
  calc |Real.sqrt 34 - Real.sqrt 34| = 0 := by rw [sub_self, abs_zero]
    _ < |Real.sqrt 234 - Real.sqrt 34| := by
        rw [abs_of_pos (by linarith)]
        linarith

/-- C3 (amended): in the code's naming (`multi_quadrant=True`, set by `G74`,
is its "multi-quadrant mode"): (1) in multi-quadrant mode coincident
endpoints (by `math.isclose`) produce no object; (2) in single-quadrant mode
the produced arc's center is always exactly the given offset — no quadrant
search, and coincident endpoints give a full-circle arc the same way; (3) in
multi-quadrant mode any produced arc is one of the four quadrant reflections
of the offset, its signed-area sign matches the rotation direction, and it
minimises the numeric error `|sqrt(d2) - sqrt(d1)|` among the sign-matching
reflections. -/
theorem C3_arc_quadrant_search_modes {α : Type}
    (old_point new_point control_point : ℚ × ℚ) (interpolation_mode : InterpMode)
    (aperture : α) (polarity_dark : Bool) (unit : Option LUnit) :
    ((isclose old_point.1 new_point.1 && isclose old_point.2 new_point.2) = true →
      GraphicsState._create_arc old_point new_point control_point interpolation_mode
        aperture polarity_dark unit true = .noObject)
    ∧ (GraphicsState._create_arc old_point new_point control_point interpolation_mode
          aperture polarity_dark unit false =
        .obj (quadArc old_point new_point (interpolation_mode == InterpMode.circular_cw)
          aperture polarity_dark unit control_point.1 control_point.2))
    ∧ (∀ a : Arc α,
        GraphicsState._create_arc old_point new_point control_point interpolation_mode
          aperture polarity_dark unit true = .obj a →
        a ∈ quadrantCandidates old_point new_point control_point
            (interpolation_mode == InterpMode.circular_cw) aperture polarity_dark unit
        ∧ signMatches old_point new_point
            (interpolation_mode == InterpMode.circular_cw) a = true
        ∧ ∀ b ∈ quadrantCandidates old_point new_point control_point
              (interpolation_mode == InterpMode.circular_cw) aperture polarity_dark unit,
            signMatches old_point new_point
              (interpolation_mode == InterpMode.circular_cw) b = true →
            numeric_error a ≤ numeric_error b) := by
  refine ⟨?_, rfl, ?_⟩
  · intro hco
    rw [create_arc_multi, if_pos hco]
  · intro a h
    rw [create_arc_multi] at h
    by_cases hco : (isclose old_point.1 new_point.1 && isclose old_point.2 new_point.2) = true
    · rw [if_pos hco] at h
      exact ArcResult.noConfusion h
    · rw [if_neg hco] at h
      cases hfind : (isortB errLe (quadrantCandidates old_point new_point control_point
            (interpolation_mode == InterpMode.circular_cw) aperture polarity_dark
            unit)).find?
          (signMatches old_point new_point (interpolation_mode == InterpMode.circular_cw)) with
      | none =>
          rw [hfind] at h
          exact ArcResult.noConfusion h
      | some c =>
          rw [hfind] at h
          have h' : ArcResult.obj c = ArcResult.obj a := h
          injection h' with h'
          subst h'
          have hperm := isortB_perm errLe (quadrantCandidates old_point new_point
            control_point (interpolation_mode == InterpMode.circular_cw) aperture
            polarity_dark unit)
          refine ⟨hperm.mem_iff.mp (List.mem_of_find?_eq_some hfind),
            List.find?_some hfind, ?_⟩
          intro b hb hsb
          have hmin := find?_pairwise_min errLe
            (signMatches old_point new_point (interpolation_mode == InterpMode.circular_cw)) _
            (isortB_pairwise errLe (fun x y => errLe_total x y)
              (fun x y z => errLe_trans x y z) _)
            (fun x => errLe_refl x) c hfind
          exact (errLe_iff c b).mp (hmin b (hperm.mem_iff.mpr hb) hsb)

/-- The arc the multi-quadrant search produces at `old=(0,0)`, `new=(10,0)`,
offset `(5,3)`, clockwise. -/
def c3wArc : Arc Unit := quadArc (0, 0) (10, 0) true () true none 5 3

/-- Quadrant reflection `(-5,3)` in the witness scenario. -/
def c3wB : Arc Unit := quadArc (0, 0) (10, 0) true () true none (-5) 3

/-- Quadrant reflection `(5,-3)` in the witness scenario. -/
def c3wC : Arc Unit := quadArc (0, 0) (10, 0) true () true none 5 (-3)

/-- Quadrant reflection `(-5,-3)` in the witness scenario. -/
def c3wD : Arc Unit := quadArc (0, 0) (10, 0) true () true none (-5) (-3)

theorem C3_witness :
    GraphicsState._create_arc ((0 : ℚ), (0 : ℚ)) (0, 0) (3, 4) InterpMode.circular_cw
        () true none true = .noObject
    ∧ GraphicsState._create_arc ((0 : ℚ), (0 : ℚ)) (10, 0) (5, 3) InterpMode.circular_cw
        () true none false =
        .obj (quadArc (0, 0) (10, 0) (InterpMode.circular_cw == InterpMode.circular_cw)
          () true none 5 3)
    ∧ (c3wArc ∈ quadrantCandidates ((0 : ℚ), (0 : ℚ)) (10, 0) (5, 3)
          (InterpMode.circular_cw == InterpMode.circular_cw) () true none
        ∧ signMatches ((0 : ℚ), (0 : ℚ)) (10, 0)
            (InterpMode.circular_cw == InterpMode.circular_cw) c3wArc = true
        ∧ ∀ b ∈ quadrantCandidates ((0 : ℚ), (0 : ℚ)) (10, 0) (5, 3)
              (InterpMode.circular_cw == InterpMode.circular_cw) () true none,
            signMatches ((0 : ℚ), (0 : ℚ)) (10, 0)
              (InterpMode.circular_cw == InterpMode.circular_cw) b = true →
            numeric_error c3wArc ≤ numeric_error b) := by
  have hcw : (InterpMode.circular_cw == InterpMode.circular_cw) = true := rfl
  have hquad : quadrantCandidates ((0 : ℚ), (0 : ℚ)) (10, 0) (5, 3) true () true
      (none : Option LUnit) = [c3wArc, c3wB, c3wC, c3wD] := rfl
  have h1 : errLe c3wC c3wD = true := by
    norm_num [errLe, sqrtCmpAux, arc_d1, arc_d2, sq_distance, Arc.center, Arc.p1,
      Arc.p2, c3wC, c3wD, quadArc]
  have h2 : errLe c3wB c3wC = false := by
    norm_num [errLe, sqrtCmpAux, arc_d1, arc_d2, sq_distance, Arc.center, Arc.p1,
      Arc.p2, c3wB, c3wC, quadArc]
  have h3 : errLe c3wB c3wD = true := by
    norm_num [errLe, sqrtCmpAux, arc_d1, arc_d2, sq_distance, Arc.center, Arc.p1,
      Arc.p2, c3wB, c3wD, quadArc]
  have h4 : errLe c3wArc c3wC = true := by
    norm_num [errLe, sqrtCmpAux, arc_d1, arc_d2, sq_distance, Arc.center, Arc.p1,
      Arc.p2, c3wArc, c3wC, quadArc]
  have hsort : isortB errLe [c3wArc, c3wB, c3wC, c3wD] = [c3wArc, c3wC, c3wB, c3wD] := by
    simp [isortB, insertSortedB, h1, h2, h3, h4]
  have hsA : signMatches ((0 : ℚ), (0 : ℚ)) (10, 0) true c3wArc = true := by
    norm_num [signMatches, point_line_distance, c3wArc, quadArc]
  have hfind : (isortB errLe (quadrantCandidates ((0 : ℚ), (0 : ℚ)) (10, 0) (5, 3)
        true () true (none : Option LUnit))).find?
      (signMatches ((0 : ℚ), (0 : ℚ)) (10, 0) true) = some c3wArc := by
    rw [hquad, hsort, List.find?_cons_of_pos _ hsA]
  have hrun : GraphicsState._create_arc ((0 : ℚ), (0 : ℚ)) (10, 0) (5, 3)
      InterpMode.circular_cw () true none true = .obj c3wArc := by
    rw [create_arc_multi, if_neg (by norm_num [isclose]), hcw, hfind]
  exact ⟨(C3_arc_quadrant_search_modes ((0 : ℚ), (0 : ℚ)) ((0 : ℚ), (0 : ℚ)) (3, 4)
      InterpMode.circular_cw () true none).1 (by norm_num [isclose]),
    (C3_arc_quadrant_search_modes ((0 : ℚ), (0 : ℚ)) (10, 0) (5, 3)
      InterpMode.circular_cw () true none).2.1,
    (C3_arc_quadrant_search_modes ((0 : ℚ), (0 : ℚ)) (10, 0) (5, 3)
      InterpMode.circular_cw () true none).2.2 c3wArc hrun⟩

end Gerbonara
